import Mathlib

set_option maxRecDepth 80000
set_option maxHeartbeats 1000000

/-!
Verification of the ODIN mobility ETL pipeline (parser, transformers,
validator, loader, orchestrator) against its design document.

The development shallowly embeds the Python sources:
  * `src/parser.py`      -> namespace `MetadataParser`
  * `src/transformer.py` -> namespaces `DimensionTransformer`, `FactTransformer`
  * `src/validator.py`   -> namespace `Validator`
  * `src/loader.py`      -> namespace `Loader`
  * `src/etl.py`         -> namespace `ETL`

Pandas dataframes are modelled as a list of column names plus a list of
rows of cells (`Table`); cell values are strings, rationals (for floats),
a missing marker (covering both NaN and None, which the pipeline treats
alike as SQL NULL), and an abstract timestamp.  The MD5 digest used for
`fact_id` is implemented in full (namespace `MD5`) since the digest value
is part of the wire-level contract being verified.
-/

namespace ETLModel

/-! ## Python string helpers -/

/-- Whitespace recognised by Python `str.strip` (ASCII subset; the data
at hand is ASCII). -/
def isSpaceChar (c : Char) : Bool :=
  c = ' ' || c = '\t' || c = '\n' || c = '\r' || c = '\x0b' || c = '\x0c'

/-- Model of Python `str.strip` on the character list. -/
def stripList (cs : List Char) : List Char :=
  ((cs.dropWhile isSpaceChar).reverse.dropWhile isSpaceChar).reverse

/-- Model of Python `str.strip` / pandas `.str.strip()`. -/
def strip (s : String) : String :=
  ⟨stripList s.data⟩

/-! ## MD5 (RFC 1321), used by `FactTransformer._hash_row` via `hashlib.md5` -/

namespace MD5

/-- Bit mask for 32-bit words. -/
def mask32 : Nat := 4294967295

/-- Addition modulo 2^32. -/
def add32 (a b : Nat) : Nat := (a + b) % 4294967296

/-- Left rotation of a 32-bit word. -/
def rotl32 (x n : Nat) : Nat :=
  ((x <<< n) ||| (x >>> (32 - n))) % 4294967296

/-- Per-round sine constants `K[i] = floor(abs(sin(i+1)) * 2^32)`. -/
def K : List Nat :=
  [0xd76aa478, 0xe8c7b756, 0x242070db, 0xc1bdceee,
   0xf57c0faf, 0x4787c62a, 0xa8304613, 0xfd469501,
   0x698098d8, 0x8b44f7af, 0xffff5bb1, 0x895cd7be,
   0x6b901122, 0xfd987193, 0xa679438e, 0x49b40821,
   0xf61e2562, 0xc040b340, 0x265e5a51, 0xe9b6c7aa,
   0xd62f105d, 0x02441453, 0xd8a1e681, 0xe7d3fbc8,
   0x21e1cde6, 0xc33707d6, 0xf4d50d87, 0x455a14ed,
   0xa9e3e905, 0xfcefa3f8, 0x676f02d9, 0x8d2a4c8a,
   0xfffa3942, 0x8771f681, 0x6d9d6122, 0xfde5380c,
   0xa4beea44, 0x4bdecfa9, 0xf6bb4b60, 0xbebfbc70,
   0x289b7ec6, 0xeaa127fa, 0xd4ef3085, 0x04881d05,
   0xd9d4d039, 0xe6db99e5, 0x1fa27cf8, 0xc4ac5665,
   0xf4292244, 0x432aff97, 0xab9423a7, 0xfc93a039,
   0x655b59c3, 0x8f0ccc92, 0xffeff47d, 0x85845dd1,
   0x6fa87e4f, 0xfe2ce6e0, 0xa3014314, 0x4e0811a1,
   0xf7537e82, 0xbd3af235, 0x2ad7d2bb, 0xeb86d391]

/-- Per-round left-rotation amounts. -/
def S : List Nat :=
  [7, 12, 17, 22, 7, 12, 17, 22, 7, 12, 17, 22, 7, 12, 17, 22,
   5,  9, 14, 20, 5,  9, 14, 20, 5,  9, 14, 20, 5,  9, 14, 20,
   4, 11, 16, 23, 4, 11, 16, 23, 4, 11, 16, 23, 4, 11, 16, 23,
   6, 10, 15, 21, 6, 10, 15, 21, 6, 10, 15, 21, 6, 10, 15, 21]

/-- Little-endian byte decomposition of a word into `k` bytes. -/
def leBytes (k n : Nat) : List Nat :=
  (List.range k).map fun i => (n >>> (8 * i)) % 256

/-- One of the 64 MD5 rounds acting on the running state `(a, b, c, d)`. -/
def round (M : List Nat) (st : Nat × Nat × Nat × Nat) (i : Nat) :
    Nat × Nat × Nat × Nat :=
  let (a, b, c, d) := st
  let fg : Nat × Nat :=
    if i < 16 then ((b &&& c) ||| ((mask32 ^^^ b) &&& d), i)
    else if i < 32 then ((d &&& b) ||| ((mask32 ^^^ d) &&& c), (5 * i + 1) % 16)
    else if i < 48 then (b ^^^ c ^^^ d, (3 * i + 5) % 16)
    else (c ^^^ (b ||| (mask32 ^^^ d)), (7 * i) % 16)
  let tmp := (fg.1 + a + K.getD i 0 + M.getD fg.2 0) % 4294967296
  (d, add32 b (rotl32 tmp (S.getD i 0)), b, c)

/-- Interpret 64 message bytes as 16 little-endian 32-bit words. -/
def chunkWords (bytes : List Nat) : List Nat :=
  (List.range 16).map fun j =>
    bytes.getD (4 * j) 0 + 256 * bytes.getD (4 * j + 1) 0 +
    65536 * bytes.getD (4 * j + 2) 0 + 16777216 * bytes.getD (4 * j + 3) 0

/-- Process one 64-byte chunk. -/
def processChunk (st : Nat × Nat × Nat × Nat) (bytes : List Nat) :
    Nat × Nat × Nat × Nat :=
  let M := chunkWords bytes
  let r := (List.range 64).foldl (round M) st
  (add32 st.1 r.1, add32 st.2.1 r.2.1, add32 st.2.2.1 r.2.2.1,
   add32 st.2.2.2 r.2.2.2)

/-- MD5 padding: `0x80`, zeros to 56 mod 64, then the 64-bit little-endian
bit length. -/
def pad (msg : List Nat) : List Nat :=
  let zeros := (55 + 64 - msg.length % 64) % 64
  msg ++ [128] ++ List.replicate zeros 0 ++ leBytes 8 ((8 * msg.length) % 2 ^ 64)

/-- Digest of a byte string as 16 bytes. -/
def digestBytes (msg : List Nat) : List Nat :=
  let padded := pad msg
  let chunks := (List.range (padded.length / 64)).map fun i =>
    (padded.drop (64 * i)).take 64
  let st := chunks.foldl processChunk
    (0x67452301, 0xefcdab89, 0x98badcfe, 0x10325476)
  leBytes 4 st.1 ++ leBytes 4 st.2.1 ++ leBytes 4 st.2.2.1 ++ leBytes 4 st.2.2.2

/-- Lowercase hexadecimal digit for a value below 16. -/
def hexDigit (n : Nat) : Char :=
  ("0123456789abcdef".data).getD n '0'

/-- Two lowercase hex characters for one byte. -/
def byteHex (b : Nat) : List Char :=
  [hexDigit ((b / 16) % 16), hexDigit (b % 16)]

/-- UTF-8 encoding of one character, as `str.encode()` produces. -/
def utf8Char (c : Char) : List Nat :=
  let n := c.toNat
  if n < 128 then [n]
  else if n < 2048 then [192 ||| (n >>> 6), 128 ||| (n &&& 63)]
  else if n < 65536 then
    [224 ||| (n >>> 12), 128 ||| ((n >>> 6) &&& 63), 128 ||| (n &&& 63)]
  else
    [240 ||| (n >>> 18), 128 ||| ((n >>> 12) &&& 63),
     128 ||| ((n >>> 6) &&& 63), 128 ||| (n &&& 63)]

/-- UTF-8 encoding of a string. -/
def utf8 (s : String) : List Nat :=
  s.data.flatMap utf8Char

/-- Model of `hashlib.md5(s.encode()).hexdigest()`: the lowercase
hexadecimal MD5 digest of the UTF-8 encoding of `s`. -/
def hexdigest (s : String) : String :=
  ⟨(digestBytes (utf8 s)).flatMap byteHex⟩

end MD5

/-! ## Dataframe model

A pandas dataframe is a list of column names plus rectangular rows of
cells.  `Cell.null` covers both `NaN` and `None`: the pipeline converts
the former into the latter before loading and treats both as SQL NULL,
so the two missing markers are indistinguishable at every observable
point of the model. -/

/-- One dataframe cell. -/
inductive Cell where
  | str (s : String)
  | num (q : Rat)
  | null
  | time (t : Nat)
deriving DecidableEq, Repr

/-- A dataframe: column names plus rows of cells. -/
structure Table where
  cols : List String
  rows : List (List Cell)
deriving DecidableEq, Repr

/-- Model of Python `str(x)` / pandas `astype(str)` on one cell.  A missing
value stringifies to a token that the transformers map straight back to
missing (pandas produces "nan" for NaN and "None" for None; both are
`Cell.null` here and both tokens are replaced by missing again); the
stringification of numeric and timestamp cells is abstracted by
`toString`, which no claim exercises. -/
def cellToStr : Cell → String
  | .str s => s
  | .null => "nan"
  | .num q => toString q
  | .time t => toString t

/-- Rename columns through a mapping table, as `df.rename(columns=...)`:
unmapped names are left untouched. -/
def Table.renameCols (t : Table) (mapping : List (String × String)) : Table :=
  { t with cols := t.cols.map fun c => ((mapping.lookup c).getD c) }

/-- Apply a function to the cell at one position of a row. -/
def modifyCell (f : Cell → Cell) : Nat → List Cell → List Cell
  | _, [] => []
  | 0, x :: xs => f x :: xs
  | i + 1, x :: xs => x :: modifyCell f i xs

/-- Apply a per-cell function to one named column; a missing column is a
no-op (the sources guard such assignments with `if col in df.columns`). -/
def Table.mapCol (t : Table) (c : String) (f : Cell → Cell) : Table :=
  match t.cols.indexOf? c with
  | none => t
  | some i => { t with rows := t.rows.map (modifyCell f i) }

/-- Read one named column, as `df[col]`. -/
def Table.getCol (t : Table) (c : String) : Option (List Cell) :=
  (t.cols.indexOf? c).map fun i => t.rows.map fun r => r.getD i Cell.null

/-- Assign a column computed from each whole row, as
`df[col] = df.apply(f, axis=1)`: overwrite when present, else append. -/
def Table.setColByRow (t : Table) (c : String) (f : List Cell → Cell) : Table :=
  match t.cols.indexOf? c with
  | some i => { t with rows := t.rows.map fun r => r.set i (f r) }
  | none => { cols := t.cols ++ [c], rows := t.rows.map fun r => r ++ [f r] }

/-- Column projection `df[[c for c in order if c in df.columns]]`. -/
def Table.selectCols (t : Table) (order : List String) : Table :=
  let keep := order.filter t.cols.contains
  { cols := keep,
    rows := t.rows.map fun r =>
      keep.map fun c => r.getD ((t.cols.indexOf? c).getD 0) Cell.null }

/-- Value-level replacement across every column, as `df.replace(...)`. -/
def Table.replaceCells (t : Table) (f : Cell → Cell) : Table :=
  { t with rows := t.rows.map (List.map f) }

/-! ## DimensionTransformer (src/transformer.py) -/

namespace DimensionTransformer

/-- Source-to-canonical column name mapping. -/
def COLUMN_MAPPING : List (String × String) :=
  [("Key", "key"), ("Title", "title"), ("Description", "description")]

/-- Step `rename_columns`. -/
def rename_columns (t : Table) : Table := t.renameCols COLUMN_MAPPING

/-- Per-cell effect of `clean_strings` on one column:
`astype(str).str.strip()` followed by
`replace({"nan": None, "None": None})`. -/
def cleanCell (x : Cell) : Cell :=
  let s := strip (cellToStr x)
  if s = "nan" ∨ s = "None" then Cell.null else Cell.str s

/-- Step `clean_strings`: trim and re-missing the three text columns
when present. -/
def clean_strings (t : Table) : Table :=
  ["key", "title", "description"].foldl (fun acc c => acc.mapCol c cleanCell) t

/-- Step `handle_nulls`: `df.replace({"": None, " ": None})`. -/
def handle_nulls (t : Table) : Table :=
  t.replaceCells fun x =>
    if x = Cell.str "" ∨ x = Cell.str " " then Cell.null else x

/-- Step `add_audit_columns`: stamp `ingested_at` with the capture time. -/
def add_audit_columns (now : Nat) (t : Table) : Table :=
  t.setColByRow "ingested_at" fun _ => Cell.time now

/-- Method `transform`: the full dimension pipeline
`rename_columns().clean_strings().handle_nulls().add_audit_columns()`. -/
def transform (now : Nat) (t : Table) : Table :=
  add_audit_columns now (handle_nulls (clean_strings (rename_columns t)))

end DimensionTransformer

/-! ## FactTransformer (src/transformer.py) -/

namespace FactTransformer

/-- Source-to-canonical column name mapping. -/
def COLUMN_MAPPING : List (String × String) :=
  [("TravelMotives", "travel_motive_key"), ("Population", "population_key"),
   ("TravelModes", "travel_mode_key"), ("Margins", "margin_key"),
   ("RegionCharacteristics", "region_key"), ("Periods", "period_key"),
   ("Trips_1", "trips_daily"), ("DistanceTravelled_2", "distance_daily"),
   ("TimeTravelled_3", "time_daily"), ("Trips_4", "trips_yearly"),
   ("DistanceTravelled_5", "distance_yearly"), ("TimeTravelled_6", "time_yearly")]

/-- The six foreign-key columns, in hashing order. -/
def FK_COLUMNS : List String :=
  ["travel_motive_key", "population_key", "travel_mode_key",
   "margin_key", "region_key", "period_key"]

/-- The six metric columns. -/
def METRIC_COLUMNS : List String :=
  ["trips_daily", "distance_daily", "time_daily",
   "trips_yearly", "distance_yearly", "time_yearly"]

/-- Step `rename_columns`. -/
def rename_columns (t : Table) : Table := t.renameCols COLUMN_MAPPING

/-- Method `drop_unused_columns` (defined on the class; see the theorems
for whether `transform` invokes it). -/
def drop_unused_columns (t : Table) : Table :=
  t.selectCols ("fact_id" :: (FK_COLUMNS ++ METRIC_COLUMNS))

/-- Digits of a decimal literal as a number. -/
def digitsToNat (cs : List Char) : Nat :=
  cs.foldl (fun a c => 10 * a + (c.toNat - 48)) 0

/-- Exponent suffix of a numeric literal: optional sign then digits. -/
def parseExp (cs : List Char) : Option Int :=
  let sr : Int × List Char :=
    match cs with
    | '-' :: r => (-1, r)
    | '+' :: r => (1, r)
    | r => (1, r)
  if sr.2 ≠ [] ∧ sr.2.all Char.isDigit then
    some (sr.1 * (digitsToNat sr.2 : Int))
  else none

/-- Model of `pd.to_numeric(x, errors="coerce")` on one string: an
optionally signed decimal literal with optional fraction and exponent,
surrounding whitespace allowed; anything else is unparseable. -/
def parseNum (s : String) : Option Rat :=
  let cs := stripList s.data
  let sr : Rat × List Char :=
    match cs with
    | '-' :: r => (-1, r)
    | '+' :: r => (1, r)
    | r => (1, r)
  let ip := sr.2.takeWhile Char.isDigit
  let rest := sr.2.dropWhile Char.isDigit
  let withMag : Rat → List Char → Option Rat := fun mag tail =>
    match tail with
    | [] => some (sr.1 * mag)
    | 'e' :: r => (parseExp r).map fun e => sr.1 * mag * (10 : Rat) ^ e
    | 'E' :: r => (parseExp r).map fun e => sr.1 * mag * (10 : Rat) ^ e
    | _ => none
  match rest with
  | '.' :: r =>
    let fp := r.takeWhile Char.isDigit
    let rest2 := r.dropWhile Char.isDigit
    if ip = [] ∧ fp = [] then none
    else withMag ((digitsToNat ip : Rat) +
      (digitsToNat fp : Rat) / (10 : Rat) ^ fp.length) rest2
  | _ => if ip = [] then none else withMag (digitsToNat ip : Rat) rest

/-- Numeric coercion of one cell: unparseable strings become missing;
numbers pass through; missing stays missing. -/
def toNumericCell : Cell → Cell
  | .str s => match parseNum s with | some q => .num q | none => .null
  | .num q => .num q
  | .null => .null
  | .time _ => .null

/-- Step `cast_types`: trim each foreign-key column as text, then coerce
each metric column to numeric with unparseable values as missing. -/
def cast_types (t : Table) : Table :=
  let t1 := FK_COLUMNS.foldl
    (fun acc c => acc.mapCol c fun x => Cell.str (strip (cellToStr x))) t
  METRIC_COLUMNS.foldl (fun acc c => acc.mapCol c toNumericCell) t1

/-- Step `handle_nulls`: replace the `"."` sentinel in the metric columns
with missing; the following generic pass `df.where(pd.notnull(df), None)`
turns NaN into None, which are one and the same `Cell.null` here. -/
def handle_nulls (t : Table) : Table :=
  METRIC_COLUMNS.foldl
    (fun acc c => acc.mapCol c fun x =>
      if x = Cell.str "." then Cell.null else x) t

/-- Method `_hash_row`: join the six foreign-key values of a row with
`"|"` and take the MD5 hex digest. -/
def hashRow (cols : List String) (r : List Cell) : String :=
  MD5.hexdigest (String.intercalate "|"
    (FK_COLUMNS.map fun c =>
      cellToStr (r.getD ((cols.indexOf? c).getD cols.length) Cell.null)))

/-- Step `compute_fact_id`: `df["fact_id"] = df.apply(_hash_row, axis=1)`. -/
def compute_fact_id (t : Table) : Table :=
  t.setColByRow "fact_id" fun r => Cell.str (hashRow t.cols r)

/-- Step `add_audit_columns`. -/
def add_audit_columns (now : Nat) (t : Table) : Table :=
  t.setColByRow "ingested_at" fun _ => Cell.time now

/-- Canonical output column order. -/
def columnOrder : List String :=
  "fact_id" :: (FK_COLUMNS ++ (METRIC_COLUMNS ++ ["ingested_at"]))

/-- Step `reorder_columns`. -/
def reorder_columns (t : Table) : Table := t.selectCols columnOrder

/-- The chain of steps that the method `transform` runs, in source order,
each paired with the name of the method it invokes. -/
def transformSteps (now : Nat) : List (String × (Table → Table)) :=
  [("rename_columns", rename_columns),
   ("cast_types", cast_types),
   ("handle_nulls", handle_nulls),
   ("compute_fact_id", compute_fact_id),
   ("add_audit_columns", add_audit_columns now),
   ("reorder_columns", reorder_columns)]

/-- Method `transform`: run the chained steps over the input. -/
def transform (now : Nat) (t : Table) : Table :=
  (transformSteps now).foldl (fun acc s => s.2 acc) t

end FactTransformer

/-! ## MetadataParser (src/parser.py) -/

/-- Update-or-append assignment into a name-keyed association list, the
semantics of `mapping[name] = value` on a Python dict. -/
def assocUpdate {α : Type} (l : List (String × α)) (k : String) (v : α) :
    List (String × α) :=
  if l.any (fun p => p.1 == k) then
    l.map fun p => if p.1 == k then (k, v) else p
  else l ++ [(k, v)]

namespace MetadataParser

/-- Split a character list at every separator occurrence (the splitter
keeps empty pieces, as Python string splitting does). -/
def splitOnChar (sep : Char) : List Char → List (List Char)
  | [] => [[]]
  | c :: rest =>
    match splitOnChar sep rest with
    | [] => [[]]
    | h :: t => if c = sep then [] :: h :: t else (c :: h) :: t

/-- The lines of a document (split at every newline). -/
def splitLines (s : String) : List String :=
  (splitOnChar '\n' s.data).map fun cs => ⟨cs⟩

/-- Match one line against the section-header pattern
`^\s*﻿?"([^"]+)"\s*$`: surrounding whitespace, an optional
byte-order mark, then a double-quoted non-empty quote-free name filling
the rest of the line. -/
def headerName (line : String) : Option String :=
  let t := stripList line.data
  let t1 := match t with
    | '\uFEFF' :: r => r
    | r => r
  match t1 with
  | '"' :: rest =>
    if rest.getLast? == some '"' && !rest.dropLast.isEmpty &&
        rest.dropLast.all (fun c => c != '"') then
      some ⟨rest.dropLast⟩
    else none
  | _ => none

/-- Method `_find_sections`: every header name in the document, in line
order (the multiline regex scan). -/
def findSections (content : String) : List String :=
  (splitLines content).filterMap headerName

/-- Index of the first occurrence of `needle` in a character list. -/
def findSubstrAux (needle : List Char) : List Char → Nat → Option Nat
  | [], i => if needle = [] then some i else none
  | c :: rest, i =>
    if needle.isPrefixOf (c :: rest) then some i
    else findSubstrAux needle rest (i + 1)

/-- Model of Python `str.find` (as an `Option` instead of `-1`). -/
def findSubstr (hay needle : String) : Option Nat :=
  findSubstrAux needle.data hay.data 0

/-- Model of the Python slice `s[start:stop]` where `stop` may be
negative (counting from the end), as produced by a failed `find`. -/
def pySlice (s : String) (start : Nat) (stop : Int) : String :=
  let n := s.data.length
  let stopN : Nat := if stop < 0 then ((n : Int) + stop).toNat else stop.toNat
  ⟨(s.data.take stopN).drop start⟩

/-- A parsed tabular section, as `pd.read_csv` returns it: the header
row's column names plus data rows, a missing trailing field being NaN.
Cell typing (`read_csv` numeric inference) is not modelled; fields stay
text. -/
structure Csv where
  header : List String
  rows : List (List (Option String))
deriving DecidableEq, Repr

/-- Split one line into fields, honouring the `"` quote character so a
separator inside quotes does not split (model of the `read_csv`
tokenizer on one line; multi-line quoted fields are out of scope). -/
def splitFieldsAux (sep : Char) : List Char → Bool → List Char → List String
  | [], _, cur => [⟨cur.reverse⟩]
  | c :: rest, inQ, cur =>
    if c == '"' then splitFieldsAux sep rest (!inQ) cur
    else if c == sep && !inQ then
      (⟨cur.reverse⟩ : String) :: splitFieldsAux sep rest false []
    else splitFieldsAux sep rest inQ (c :: cur)

/-- Field split of one line. -/
def splitFields (sep : Char) (line : String) : List String :=
  splitFieldsAux sep line.data false []

/-- Model of `pd.read_csv(io.StringIO(text), sep=sep, skiprows=1,
quotechar='"')`: drop exactly one line, skip blank lines, take the next
line as the column header, then parse data rows; a row with more fields
than the header is a tokenizer error, a row with fewer is padded with
missing values. -/
def readCsv (sep : Char) (text : String) : Except String Csv :=
  let ls := ((splitLines text).drop 1).filter (fun l => l ≠ "")
  match ls with
  | [] => .error "EmptyDataError"
  | h :: rest =>
    let header := splitFields sep h
    let n := header.length
    (rest.mapM fun l =>
      let fs := splitFields sep l
      if fs.length > n then Except.error "ParserError"
      else Except.ok ((fs.map some) ++ List.replicate (n - fs.length) none)).map
      fun rows => { header := header, rows := rows }

/-- Method `parse`: for each found section name, slice the document from
the first occurrence of the quoted marker followed by a newline up to
the first occurrence of the next quoted marker followed by a newline
(`find` returning `-1` when absent, which the slice then treats as
counting from the end), strip the block, and parse it with one line
skipped; a block whose `find` failed, or whose tabular parse failed, is
reported and omitted. -/
def parse (sep : Char) (content : String) : List (String × Csv) :=
  let sections := findSections content
  (List.range sections.length).foldl
    (fun acc i =>
      let marker := sections.getD i ""
      match findSubstr content ("\"" ++ marker ++ "\"" ++ "\n") with
      | none => acc
      | some start =>
        let stop : Int :=
          if i + 1 < sections.length then
            match findSubstr content
                ("\"" ++ sections.getD (i + 1) "" ++ "\"" ++ "\n") with
            | some e => (e : Int)
            | none => -1
          else (content.data.length : Int)
        let block := strip (pySlice content start stop)
        match readCsv sep block with
        | .ok csv => assocUpdate acc marker csv
        | .error _ => acc)
    []

/-- Each line of the document paired with the character offset at which
it starts. -/
def lineOffsetsAux (off : Nat) : List String → List (Nat × String)
  | [] => []
  | l :: ls => (off, l) :: lineOffsetsAux (off + l.length + 1) ls

/-- Line decomposition of the document with starting offsets. -/
def lineOffsets (content : String) : List (Nat × String) :=
  lineOffsetsAux 0 (splitLines content)

/-- The header lines of the document: start offset, full line text and
extracted section name of every line matching the header pattern. -/
def headerLines (content : String) : List (Nat × String × String) :=
  (lineOffsets content).filterMap fun p =>
    (headerName p.2).map fun n => (p.1, p.2, n)

/-- The section-slicing procedure in the words of the specification
claim: the body of header `i` is the document slice between the END of
header `i`'s line and the start of header `i+1`'s line (document end for
the last header), parsed with one line skipped. -/
def claimSliceParse (sep : Char) (content : String) : List (String × Csv) :=
  let hs := headerLines content
  (List.range hs.length).foldl
    (fun acc i =>
      let pm := hs.getD i (0, "", "")
      let bodyStart := pm.1 + pm.2.1.length + 1
      let stop : Nat :=
        if i + 1 < hs.length then (hs.getD (i + 1) (0, "", "")).1
        else content.data.length
      let block := strip (pySlice content bodyStart (stop : Int))
      match readCsv sep block with
      | .ok csv => assocUpdate acc pm.2.2 csv
      | .error _ => acc)
    []

/-- The section-slicing procedure of the claim as amended: the body of
header `i` is the slice from the START of header `i`'s marker line to
the start of header `i+1`'s marker line (document end for the last
header), with exactly one line — the marker line itself — skipped before
delimited parsing, so that the tabular header row supplies the column
names; a section whose parse fails is omitted. -/
def amendedSliceParse (sep : Char) (content : String) : List (String × Csv) :=
  let hs := headerLines content
  (List.range hs.length).foldl
    (fun acc i =>
      let pm := hs.getD i (0, "", "")
      let stop : Nat :=
        if i + 1 < hs.length then (hs.getD (i + 1) (0, "", "")).1
        else content.data.length
      let block := strip (pySlice content pm.1 (stop : Int))
      match readCsv sep block with
      | .ok csv => assocUpdate acc pm.2.2 csv
      | .error _ => acc)
    []

end MetadataParser

/-! ## DataValidator (src/validator.py)

The pandera schemas are embedded as the checks they declare: per-column
presence, dtype, nullability, uniqueness and membership checks, with
`strict=False` meaning extra columns are ignored.  A failed check raises
(`Except.error`), a missing dimension raises the dictionary lookup
error. -/

namespace Validator

/-- Validation failure: a schema rule violation carrying table, column
and rule context, or a Python `KeyError` from a dictionary lookup. -/
inductive ValErr where
  | schemaError (table col rule : String)
  | keyError (key : String)
deriving DecidableEq, Repr

/-- Cell is non-missing. -/
def nonNull : Cell → Bool
  | .null => false
  | _ => true

/-- Cell holds a string. -/
def isStrCell : Cell → Bool
  | .str _ => true
  | _ => false

/-- Cell holds a number. -/
def isNumCell : Cell → Bool
  | .num _ => true
  | _ => false

/-- Run one declared column check: the column must exist and its values
must satisfy the predicate. -/
def checkColumn (table : String) (t : Table) (col rule : String)
    (p : List Cell → Bool) : Except ValErr Unit :=
  match t.getCol col with
  | none => .error (.schemaError table col "column_missing")
  | some vs => if p vs then .ok () else .error (.schemaError table col rule)

/-- The checks declared by `dimension_schema` on one dimension table:
`key` a unique non-null string column, `title` a non-null string column,
`description` a nullable string column, `ingested_at` non-null; extra
columns tolerated (`strict=False`). -/
def validateDimension (table : String) (t : Table) : Except ValErr Unit := do
  checkColumn table t "key" "not_nullable" (fun vs => vs.all nonNull)
  checkColumn table t "key" "dtype_str" (fun vs => vs.all isStrCell)
  checkColumn table t "key" "unique" (fun vs => decide vs.Nodup)
  checkColumn table t "title" "not_nullable" (fun vs => vs.all nonNull)
  checkColumn table t "title" "dtype_str" (fun vs => vs.all isStrCell)
  checkColumn table t "description" "dtype_str"
    (fun vs => vs.all fun v => !nonNull v || isStrCell v)
  checkColumn table t "ingested_at" "not_nullable" (fun vs => vs.all nonNull)

/-- The six dimension names the fact schema looks up, in the order the
schema construction reads them. -/
def REQUIRED_DIMS : List String :=
  ["TravelMotives", "Population", "TravelModes", "Margins",
   "RegionCharacteristics", "Periods"]

/-- Evaluation of `dimensions[name]["key"]` during schema construction:
a missing dimension (or a dimension without a `key` column) raises the
lookup error. -/
def lookupKeys (dims : List (String × Table)) (name : String) :
    Except ValErr (List Cell) :=
  match dims.lookup name with
  | none => .error (.keyError name)
  | some t =>
    match t.getCol "key" with
    | none => .error (.keyError "key")
    | some vs => .ok vs

/-- Building `fact_schema(dimensions)`: the construction itself
evaluates `dimensions[name]["key"]` for each of the six dimensions, so a
missing dimension raises a lookup error before any validation rule
runs. -/
def buildFactKeys (dims : List (String × Table)) :
    Except ValErr (List (List Cell)) :=
  REQUIRED_DIMS.mapM (lookupKeys dims)

/-- The checks declared by the constructed fact schema: `fact_id` a
non-null string column, each foreign-key column a non-null string column
whose values lie in the key values of the corresponding dimension
(`Check.isin`), each metric column nullable numeric, `ingested_at`
non-null; extra columns tolerated. -/
def validateFactChecks (keys : List (List Cell)) (fact : Table) :
    Except ValErr Unit := do
  checkColumn "fact_mobility" fact "fact_id" "not_nullable"
    (fun vs => vs.all fun v => nonNull v && isStrCell v)
  (FactTransformer.FK_COLUMNS.zip keys).forM fun ck =>
    checkColumn "fact_mobility" fact ck.1 "isin"
      (fun vs => vs.all fun v => nonNull v && isStrCell v && decide (v ∈ ck.2))
  FactTransformer.METRIC_COLUMNS.forM fun c =>
    checkColumn "fact_mobility" fact c "dtype_float"
      (fun vs => vs.all fun v => !nonNull v || isNumCell v)
  checkColumn "fact_mobility" fact "ingested_at" "not_nullable"
    (fun vs => vs.all nonNull)

/-- Method `validate_fact`: build the schema (which may raise the lookup
error) and run its checks. -/
def validateFact (dims : List (String × Table)) (fact : Table) :
    Except ValErr Unit := do
  let keys ← buildFactKeys dims
  validateFactChecks keys fact

/-- Method `validate_dimensions`: validate every present dimension
table, re-raising the first failure. -/
def validateDimensions (dims : List (String × Table)) : Except ValErr Unit :=
  dims.forM fun p => validateDimension p.1 p.2

/-- Method `validate_all`: dimensions first, then the fact table. -/
def validateAll (dims : List (String × Table)) (fact : Table) :
    Except ValErr Unit := do
  validateDimensions dims
  validateFact dims fact

end Validator

/-! ## Loaders (src/loader.py)

The built `INSERT ... ON CONFLICT (k) DO UPDATE SET ...` statement is
embedded as its conflict column, inserted columns and updated columns,
together with the standard meaning of executing it once per record
against a table of records. -/

namespace Loader

/-- One database record: column-name / value pairs. -/
abbrev Record := List (String × Cell)

/-- Value of a record column (tables carry all their columns, so a
missing name only arises off the modelled path and reads as NULL). -/
def recordGet (r : Record) (c : String) : Cell :=
  (r.lookup c).getD Cell.null

/-- Overwrite one column of a record (observed through `recordGet`,
which reads the first binding, a new front binding shadows the old
value — the meaning of an SQL `SET` on that column). -/
def recordSet (r : Record) (c : String) (v : Cell) : Record :=
  (c, v) :: r

/-- The content of a built UPSERT query. -/
structure UpsertQuery where
  conflictColumn : String
  insertColumns : List String
  updateColumns : List String
deriving DecidableEq, Repr

/-- Method `_build_upsert_query`: when `update_columns` is not given, it
defaults to every column except the conflict column. -/
def buildUpsertQuery (columns : List String) (conflictColumn : String)
    (updateColumns : Option (List String)) : UpsertQuery :=
  { conflictColumn := conflictColumn,
    insertColumns := columns,
    updateColumns := updateColumns.getD
      (columns.filter fun c => c != conflictColumn) }

/-- Meaning of executing the UPSERT statement for one record: when some
existing row shares the conflict-column value, every such row has
exactly the update columns overwritten with the record's values; else
the record's insert columns are appended as a new row. -/
def upsertRow (q : UpsertQuery) (db : List Record) (rec : Record) :
    List Record :=
  if db.any (fun row =>
      decide (recordGet row q.conflictColumn = recordGet rec q.conflictColumn)) then
    db.map fun row =>
      if recordGet row q.conflictColumn = recordGet rec q.conflictColumn then
        q.updateColumns.foldl (fun r c => recordSet r c (recordGet rec c)) row
      else row
  else db ++ [q.insertColumns.map fun c => (c, recordGet rec c)]

/-- Executing the UPSERT statement over all records of one load call. -/
def runUpsert (q : UpsertQuery) (db : List Record) (recs : List Record) :
    List Record :=
  recs.foldl (upsertRow q) db

/-- Method first step `df.to_dict(orient="records")`. -/
def tableRecords (t : Table) : List Record :=
  t.rows.map fun r => t.cols.zip r

/-- Source-section name to target dimension table name. -/
def DIM_TABLE_MAPPING : List (String × String) :=
  [("Population", "dim_population"), ("TravelMotives", "dim_travel_motives"),
   ("TravelModes", "dim_travel_modes"), ("Margins", "dim_margins"),
   ("RegionCharacteristics", "dim_regions"), ("Periods", "dim_periods")]

/-- Columns written for a dimension table. -/
def DIMENSION_COLUMNS : List String :=
  ["key", "title", "description", "ingested_at"]

/-- The query `DimensionsLoader._upsert_table` builds. -/
def dimUpsertQuery : UpsertQuery :=
  buildUpsertQuery DIMENSION_COLUMNS "key"
    (some ["title", "description", "ingested_at"])

/-- Method `DimensionsLoader.load`: upsert each mapped dimension table
and report the per-table record counts. -/
def dimensionsLoad (dbs : List (String × List Record))
    (dims : List (String × Table)) :
    List (String × List Record) × List (String × Nat) :=
  dims.foldl
    (fun acc p =>
      match DIM_TABLE_MAPPING.lookup p.1 with
      | none => acc
      | some tname =>
        let recs := tableRecords p.2
        let db := (acc.1.lookup tname).getD []
        (assocUpdate acc.1 tname (runUpsert dimUpsertQuery db recs),
         acc.2 ++ [(tname, recs.length)]))
    (dbs, [])

/-- Columns written for the fact table. -/
def FACT_COLUMNS : List String :=
  ["fact_id", "travel_motive_key", "population_key", "travel_mode_key",
   "margin_key", "region_key", "period_key", "trips_daily",
   "distance_daily", "time_daily", "trips_yearly", "distance_yearly",
   "time_yearly", "ingested_at"]

/-- The update set of `FactLoader` (the source list named
`METRIC_COLUMNS` there, which carries the six metrics plus
`ingested_at`). -/
def FACT_UPDATE_COLUMNS : List String :=
  ["trips_daily", "distance_daily", "time_daily", "trips_yearly",
   "distance_yearly", "time_yearly", "ingested_at"]

/-- The query `FactLoader.load` builds. -/
def factUpsertQuery : UpsertQuery :=
  buildUpsertQuery FACT_COLUMNS "fact_id" (some FACT_UPDATE_COLUMNS)

/-- Method `FactLoader.load`: upsert the canonical fact table and report
the record count. -/
def factLoad (db : List Record) (t : Table) : List Record × Nat :=
  (runUpsert factUpsertQuery db (tableRecords t), (tableRecords t).length)

end Loader

/-! ## ETLPipeline (src/etl.py) -/

namespace ETL

/-- The section names the transform stage keeps. -/
def DIMENSION_NAMES : List String :=
  ["TravelMotives", "Population", "TravelModes", "Margins",
   "RegionCharacteristics", "Periods"]

/-- Output of the extract stage. -/
structure Extracted where
  rawDimensions : List (String × MetadataParser.Csv)
  rawFacts : Table
deriving DecidableEq, Repr

/-- Output of the transform stage. -/
structure Transformed where
  dims : List (String × Table)
  facts : Table
deriving DecidableEq, Repr

/-- A parsed section as the dataframe the transformer receives
(`read_csv` numeric inference is not modelled; fields enter as text,
missing trailing fields as NaN). -/
def csvToTable (c : MetadataParser.Csv) : Table :=
  { cols := c.header,
    rows := c.rows.map (List.map fun o =>
      match o with
      | some s => Cell.str s
      | none => Cell.null) }

/-- Persistent store state: one record table per target name plus the
fact table. -/
structure DBState where
  dims : List (String × List Loader.Record)
  fact : List Loader.Record
deriving DecidableEq, Repr

/-- The per-run summary `ETLResult`. -/
structure RunResult where
  dimensionsLoaded : List (String × Nat)
  factsLoaded : Nat
deriving DecidableEq, Repr

/-- Derived total of dimension rows loaded. -/
def RunResult.totalDimensions (r : RunResult) : Nat :=
  (r.dimensionsLoaded.map Prod.snd).sum

/-- Stage `extract`: parse the metadata document into raw dimension
sections and read the raw fact dataset. -/
def extractStage (metadata : String) (sep : Char) (rawFacts : Table) :
    Extracted :=
  { rawDimensions := MetadataParser.parse sep metadata, rawFacts := rawFacts }

/-- Stage `transform`: transform every raw section whose name is a known
dimension (others are skipped), then transform the raw facts. -/
def transformStage (now : Nat) (e : Extracted) : Transformed :=
  { dims := e.rawDimensions.filterMap fun p =>
      if p.1 ∈ DIMENSION_NAMES then
        some (p.1, DimensionTransformer.transform now (csvToTable p.2))
      else none,
    facts := FactTransformer.transform now e.rawFacts }

/-- Stage `validate`. -/
def validateStage (t : Transformed) : Except Validator.ValErr Unit :=
  Validator.validateAll t.dims t.facts

/-- Stage `load`: upsert the dimension tables, then the fact table, and
assemble the run result. -/
def loadStage (t : Transformed) (db : DBState) : DBState × RunResult :=
  let dimOut := Loader.dimensionsLoad db.dims t.dims
  let factOut := Loader.factLoad db.fact t.facts
  ({ dims := dimOut.1, fact := factOut.1 },
   { dimensionsLoaded := dimOut.2, factsLoaded := factOut.2 })

/-- Method `run`: `extract().transform().validate().load()`, returning
the executed stage trace, the resulting store state, and the outcome.  A
validation failure propagates and the load stage never runs, leaving the
store untouched. -/
def run (metadata : String) (sep : Char) (rawFacts : Table) (now : Nat)
    (db : DBState) :
    List String × DBState × Except Validator.ValErr RunResult :=
  let e := extractStage metadata sep rawFacts
  let tr := transformStage now e
  match validateStage tr with
  | .error err => (["extract", "transform", "validate"], db, .error err)
  | .ok _ =>
    let out := loadStage tr db
    (["extract", "transform", "validate", "load"], out.1, .ok out.2)

end ETL

/-! ## Reduction lemmas

Closed index computations and table-operation unfoldings used to
evaluate the transformer pipelines on rows of symbolic cells. -/

/-- The raw fact source columns, in file order. -/
def SRC_FACT_COLS : List String :=
  ["TravelMotives", "Population", "TravelModes", "Margins",
   "RegionCharacteristics", "Periods", "Trips_1", "DistanceTravelled_2",
   "TimeTravelled_3", "Trips_4", "DistanceTravelled_5", "TimeTravelled_6"]

/-- The canonical fact columns right after renaming. -/
def CANON_FACT_COLS : List String :=
  ["travel_motive_key", "population_key", "travel_mode_key", "margin_key",
   "region_key", "period_key", "trips_daily", "distance_daily", "time_daily",
   "trips_yearly", "distance_yearly", "time_yearly"]

/-- Columns after `compute_fact_id` appends `fact_id`. -/
def FACT13_COLS : List String := CANON_FACT_COLS ++ ["fact_id"]

/-- Columns after `add_audit_columns` appends `ingested_at`. -/
def FULL14_COLS : List String := FACT13_COLS ++ ["ingested_at"]

theorem mapCol_mk (cols : List String) (rows : List (List Cell)) (c : String)
    (f : Cell → Cell) :
    Table.mapCol ⟨cols, rows⟩ c f =
      (match cols.indexOf? c with
       | none => (⟨cols, rows⟩ : Table)
       | some i => ⟨cols, rows.map (modifyCell f i)⟩) := by
  unfold Table.mapCol
  cases h : cols.indexOf? c <;> rfl

theorem setColByRow_mk (cols : List String) (rows : List (List Cell))
    (c : String) (f : List Cell → Cell) :
    Table.setColByRow ⟨cols, rows⟩ c f =
      (match cols.indexOf? c with
       | some i => (⟨cols, rows.map fun r => r.set i (f r)⟩ : Table)
       | none => ⟨cols ++ [c], rows.map fun r => r ++ [f r]⟩) := by
  unfold Table.setColByRow
  cases h : cols.indexOf? c <;> rfl

theorem rename_fact_src :
    SRC_FACT_COLS.map
      (fun c => ((FactTransformer.COLUMN_MAPPING.lookup c).getD c)) =
      CANON_FACT_COLS := rfl

theorem idx_c0 : CANON_FACT_COLS.indexOf? "travel_motive_key" = some 0 := rfl
theorem idx_c1 : CANON_FACT_COLS.indexOf? "population_key" = some 1 := rfl
theorem idx_c2 : CANON_FACT_COLS.indexOf? "travel_mode_key" = some 2 := rfl
theorem idx_c3 : CANON_FACT_COLS.indexOf? "margin_key" = some 3 := rfl
theorem idx_c4 : CANON_FACT_COLS.indexOf? "region_key" = some 4 := rfl
theorem idx_c5 : CANON_FACT_COLS.indexOf? "period_key" = some 5 := rfl
theorem idx_c6 : CANON_FACT_COLS.indexOf? "trips_daily" = some 6 := rfl
theorem idx_c7 : CANON_FACT_COLS.indexOf? "distance_daily" = some 7 := rfl
theorem idx_c8 : CANON_FACT_COLS.indexOf? "time_daily" = some 8 := rfl
theorem idx_c9 : CANON_FACT_COLS.indexOf? "trips_yearly" = some 9 := rfl
theorem idx_c10 : CANON_FACT_COLS.indexOf? "distance_yearly" = some 10 := rfl
theorem idx_c11 : CANON_FACT_COLS.indexOf? "time_yearly" = some 11 := rfl
theorem idx_cfid : CANON_FACT_COLS.indexOf? "fact_id" = none := rfl
theorem idx_f13 : CANON_FACT_COLS ++ ["fact_id"] = FACT13_COLS := rfl
theorem idx_f13ing : FACT13_COLS.indexOf? "ingested_at" = none := rfl
theorem idx_f14 : FACT13_COLS ++ ["ingested_at"] = FULL14_COLS := rfl

theorem reorder_keep :
    List.filter FULL14_COLS.contains
      ["fact_id", "travel_motive_key", "population_key", "travel_mode_key",
       "margin_key", "region_key", "period_key", "trips_daily",
       "distance_daily", "time_daily", "trips_yearly", "distance_yearly",
       "time_yearly", "ingested_at"] =
      ["fact_id", "travel_motive_key", "population_key", "travel_mode_key",
       "margin_key", "region_key", "period_key", "trips_daily",
       "distance_daily", "time_daily", "trips_yearly", "distance_yearly",
       "time_yearly", "ingested_at"] := rfl

theorem idx_r0 : FULL14_COLS.indexOf? "fact_id" = some 12 := rfl
theorem idx_r1 : FULL14_COLS.indexOf? "travel_motive_key" = some 0 := rfl
theorem idx_r2 : FULL14_COLS.indexOf? "population_key" = some 1 := rfl
theorem idx_r3 : FULL14_COLS.indexOf? "travel_mode_key" = some 2 := rfl
theorem idx_r4 : FULL14_COLS.indexOf? "margin_key" = some 3 := rfl
theorem idx_r5 : FULL14_COLS.indexOf? "region_key" = some 4 := rfl
theorem idx_r6 : FULL14_COLS.indexOf? "period_key" = some 5 := rfl
theorem idx_r7 : FULL14_COLS.indexOf? "trips_daily" = some 6 := rfl
theorem idx_r8 : FULL14_COLS.indexOf? "distance_daily" = some 7 := rfl
theorem idx_r9 : FULL14_COLS.indexOf? "time_daily" = some 8 := rfl
theorem idx_r10 : FULL14_COLS.indexOf? "trips_yearly" = some 9 := rfl
theorem idx_r11 : FULL14_COLS.indexOf? "distance_yearly" = some 10 := rfl
theorem idx_r12 : FULL14_COLS.indexOf? "time_yearly" = some 11 := rfl
theorem idx_r13 : FULL14_COLS.indexOf? "ingested_at" = some 13 := rfl

/-- Per-cell result of the foreign-key cast `astype(str).str.strip()`. -/
def fkOut (v : Cell) : Cell := Cell.str (strip (cellToStr v))

/-- Per-cell result of a metric column after numeric coercion and the
sentinel replacement of `handle_nulls`. -/
def metricOut (m : Cell) : Cell :=
  if FactTransformer.toNumericCell m = Cell.str "." then Cell.null
  else FactTransformer.toNumericCell m

/-- Joined foreign-key string the fact hash is taken over. -/
def fkJoin (v1 v2 v3 v4 v5 v6 : Cell) : String :=
  String.intercalate "|"
    [strip (cellToStr v1), strip (cellToStr v2), strip (cellToStr v3),
     strip (cellToStr v4), strip (cellToStr v5), strip (cellToStr v6)]

/-- Evaluation of the whole fact pipeline on one row of arbitrary cells:
foreign keys are trimmed as text, metrics are coerced, `fact_id` is the
MD5 digest of the joined trimmed foreign keys, `ingested_at` is stamped,
and the columns emerge in canonical order. -/
theorem factTransform_row (now : Nat) (v1 v2 v3 v4 v5 v6 m1 m2 m3 m4 m5 m6 : Cell) :
    FactTransformer.transform now
      ⟨SRC_FACT_COLS, [[v1, v2, v3, v4, v5, v6, m1, m2, m3, m4, m5, m6]]⟩ =
    ⟨FactTransformer.columnOrder,
     [[Cell.str (MD5.hexdigest (fkJoin v1 v2 v3 v4 v5 v6)),
       fkOut v1, fkOut v2, fkOut v3, fkOut v4, fkOut v5, fkOut v6,
       metricOut m1, metricOut m2, metricOut m3,
       metricOut m4, metricOut m5, metricOut m6, Cell.time now]]⟩ := by
  simp only [FactTransformer.transform, FactTransformer.transformSteps,
    List.foldl_cons, List.foldl_nil,
    FactTransformer.rename_columns, Table.renameCols, rename_fact_src,
    FactTransformer.cast_types, FactTransformer.handle_nulls,
    FactTransformer.FK_COLUMNS, FactTransformer.METRIC_COLUMNS,
    mapCol_mk, idx_c0, idx_c1, idx_c2, idx_c3, idx_c4, idx_c5, idx_c6,
    idx_c7, idx_c8, idx_c9, idx_c10, idx_c11,
    List.map_cons, List.map_nil, modifyCell,
    FactTransformer.compute_fact_id, FactTransformer.add_audit_columns,
    setColByRow_mk, idx_cfid, idx_f13, idx_f13ing, idx_f14,
    FactTransformer.hashRow, Option.getD_some,
    List.getD_cons_zero, List.getD_cons_succ,
    FactTransformer.reorder_columns, Table.selectCols, reorder_keep,
    FactTransformer.columnOrder,
    List.cons_append, List.nil_append,
    idx_r0, idx_r1, idx_r2, idx_r3, idx_r4, idx_r5, idx_r6, idx_r7,
    idx_r8, idx_r9, idx_r10, idx_r11, idx_r12, idx_r13,
    cellToStr, fkOut, metricOut, fkJoin]

/-- The raw dimension source columns. -/
def SRC_DIM_COLS : List String := ["Key", "Title", "Description"]

/-- The canonical dimension columns after renaming. -/
def CANON_DIM_COLS : List String := ["key", "title", "description"]

/-- The canonical dimension columns after the audit stamp. -/
def DIM4_COLS : List String := CANON_DIM_COLS ++ ["ingested_at"]

theorem rename_dim_src :
    SRC_DIM_COLS.map
      (fun c => ((DimensionTransformer.COLUMN_MAPPING.lookup c).getD c)) =
      CANON_DIM_COLS := rfl

theorem idx_d0 : CANON_DIM_COLS.indexOf? "key" = some 0 := rfl
theorem idx_d1 : CANON_DIM_COLS.indexOf? "title" = some 1 := rfl
theorem idx_d2 : CANON_DIM_COLS.indexOf? "description" = some 2 := rfl
theorem idx_ding : CANON_DIM_COLS.indexOf? "ingested_at" = none := rfl
theorem idx_dim4 : CANON_DIM_COLS ++ ["ingested_at"] = DIM4_COLS := rfl

/-- Per-cell effect of the generic empty-string pass `handle_nulls`. -/
def nullPass (x : Cell) : Cell :=
  if x = Cell.str "" ∨ x = Cell.str " " then Cell.null else x

/-- Evaluation of the whole dimension pipeline on one row of arbitrary
cells: the three text cells are cleaned then empty-normalised, and the
audit stamp is appended. -/
theorem dimTransform_row (now : Nat) (k ti d : Cell) :
    DimensionTransformer.transform now ⟨SRC_DIM_COLS, [[k, ti, d]]⟩ =
    ⟨DIM4_COLS,
     [[nullPass (DimensionTransformer.cleanCell k),
       nullPass (DimensionTransformer.cleanCell ti),
       nullPass (DimensionTransformer.cleanCell d), Cell.time now]]⟩ := by
  simp only [DimensionTransformer.transform, DimensionTransformer.rename_columns,
    Table.renameCols, rename_dim_src, DimensionTransformer.clean_strings,
    List.foldl_cons, List.foldl_nil, mapCol_mk, idx_d0, idx_d1, idx_d2,
    List.map_cons, List.map_nil, modifyCell,
    DimensionTransformer.handle_nulls, Table.replaceCells,
    DimensionTransformer.add_audit_columns, setColByRow_mk, idx_ding,
    idx_dim4, List.cons_append, List.nil_append, nullPass]

theorem idx_o0 : FactTransformer.columnOrder.indexOf? "fact_id" = some 0 := rfl
theorem idx_o1 : FactTransformer.columnOrder.indexOf? "travel_motive_key" = some 1 := rfl
theorem idx_o2 : FactTransformer.columnOrder.indexOf? "population_key" = some 2 := rfl
theorem idx_o3 : FactTransformer.columnOrder.indexOf? "travel_mode_key" = some 3 := rfl
theorem idx_o4 : FactTransformer.columnOrder.indexOf? "margin_key" = some 4 := rfl
theorem idx_o5 : FactTransformer.columnOrder.indexOf? "period_key" = some 6 := rfl
theorem idx_o6 : FactTransformer.columnOrder.indexOf? "region_key" = some 5 := rfl
theorem idx_o7 : FactTransformer.columnOrder.indexOf? "trips_daily" = some 7 := rfl
theorem idx_o8 : FactTransformer.columnOrder.indexOf? "distance_daily" = some 8 := rfl
theorem idx_o9 : FactTransformer.columnOrder.indexOf? "time_daily" = some 9 := rfl
theorem idx_o10 : FactTransformer.columnOrder.indexOf? "trips_yearly" = some 10 := rfl
theorem idx_o11 : FactTransformer.columnOrder.indexOf? "distance_yearly" = some 11 := rfl
theorem idx_o12 : FactTransformer.columnOrder.indexOf? "time_yearly" = some 12 := rfl
theorem idx_o13 : FactTransformer.columnOrder.indexOf? "ingested_at" = some 13 := rfl

theorem idx_q0 : DIM4_COLS.indexOf? "key" = some 0 := rfl
theorem idx_q1 : DIM4_COLS.indexOf? "title" = some 1 := rfl
theorem idx_q2 : DIM4_COLS.indexOf? "description" = some 2 := rfl

/-! ## Whitespace lemmas for strip -/

theorem dropWhile_ws_append (w l : List Char)
    (hw : w.all isSpaceChar = true) :
    (w ++ l).dropWhile isSpaceChar = l.dropWhile isSpaceChar := by
  induction w with
  | nil => rfl
  | cons c cs ih =>
    simp only [List.all_cons, Bool.and_eq_true] at hw
    simp [List.dropWhile, hw.1, ih hw.2]

theorem stripList_ws_append (w s : List Char)
    (hw : w.all isSpaceChar = true) :
    stripList (w ++ s) = stripList s := by
  unfold stripList
  rw [dropWhile_ws_append w s hw]

theorem stripList_append_ws (s w : List Char)
    (hw : w.all isSpaceChar = true) :
    stripList (s ++ w) = stripList s := by
  induction s with
  | nil =>
    simp only [List.nil_append]
    unfold stripList
    have h1 : w.dropWhile isSpaceChar = [] := by
      rw [List.dropWhile_eq_nil_iff]
      intro x hx
      exact (List.all_eq_true.mp hw x hx)
    simp [h1]
  | cons c cs ih =>
    unfold stripList
    by_cases hc : isSpaceChar c = true
    · simp only [List.cons_append, List.dropWhile_cons, hc, if_true]
      have := ih
      unfold stripList at this
      exact this
    · simp only [List.cons_append, List.dropWhile_cons, hc]
      simp only [Bool.false_eq_true, if_false]
      have hrev : (c :: (cs ++ w)).reverse = w.reverse ++ (c :: cs).reverse := by
        simp
      rw [hrev, dropWhile_ws_append _ _ (by simpa using hw)]

theorem strip_pad (w1 w2 s : String)
    (h1 : w1.data.all isSpaceChar = true)
    (h2 : w2.data.all isSpaceChar = true) :
    strip (w1 ++ s ++ w2) = strip s := by
  unfold strip
  have hd : (w1 ++ s ++ w2).data = w1.data ++ (s.data ++ w2.data) := by
    simp [String.data_append, List.append_assoc]
  rw [hd, stripList_ws_append _ _ h1, stripList_append_ws _ _ h2]

/-! ## MD5 digest shape lemmas -/

theorem leBytes_length (k n : Nat) : (MD5.leBytes k n).length = k := by
  simp [MD5.leBytes]

theorem digestBytes_length (msg : List Nat) :
    (MD5.digestBytes msg).length = 16 := by
  simp [MD5.digestBytes, leBytes_length]

theorem flatMap_byteHex_length (bs : List Nat) :
    (bs.flatMap MD5.byteHex).length = 2 * bs.length := by
  induction bs with
  | nil => rfl
  | cons b bs ih =>
    simp only [List.flatMap_cons, List.length_append, ih, MD5.byteHex,
      List.length_cons, List.length_nil, List.length_cons]
    omega

theorem hexdigest_length (s : String) : (MD5.hexdigest s).length = 32 := by
  show (MD5.hexdigest s).data.length = 32
  unfold MD5.hexdigest
  rw [flatMap_byteHex_length, digestBytes_length]

theorem hexDigit_mem (n : Nat) :
    MD5.hexDigit n ∈ "0123456789abcdef".data := by
  unfold MD5.hexDigit
  rw [List.getD_eq_getElem?_getD]
  rcases h : "0123456789abcdef".data[n]? with _ | x
  · simp only [Option.getD_none]
    decide
  · simp only [Option.getD_some]
    obtain ⟨hlt, hx⟩ := List.getElem?_eq_some_iff.mp h
    exact hx ▸ List.getElem_mem hlt

theorem contains_of_mem {l : List Char} {c : Char} (h : c ∈ l) :
    l.contains c = true := by
  simpa [List.contains] using List.elem_eq_true_of_mem h

theorem hexdigest_all_hex (s : String) :
    ((MD5.hexdigest s).data.all
      fun c => "0123456789abcdef".data.contains c) = true := by
  rw [List.all_eq_true]
  intro c hc
  unfold MD5.hexdigest at hc
  rw [List.mem_flatMap] at hc
  obtain ⟨b, -, hcb⟩ := hc
  unfold MD5.byteHex at hcb
  apply contains_of_mem
  simp only [List.mem_cons, List.mem_singleton, List.not_mem_nil,
    or_false] at hcb
  rcases hcb with h | h
  · exact h ▸ hexDigit_mem _
  · exact h ▸ hexDigit_mem _

/-! ## Claim theorems -/

/-- Claim C1: on every canonical fact row, `fact_id` is the lowercase
hexadecimal MD5 digest (32 hex characters) of the six trimmed
foreign-key string values joined by the pipe character in the fixed
order travel motive, population, travel mode, margin, region, period;
the derivation depends only on the foreign keys (so identical six-tuples
give identical ids); and the row TM1, P1, M1, MG1, R1, 2023JJ00 gets the
MD5 hex digest of the literal string TM1|P1|M1|MG1|R1|2023JJ00. -/
theorem claim_c1_fact_id_derivation :
    (∀ (now : Nat) (v1 v2 v3 v4 v5 v6 m1 m2 m3 m4 m5 m6 : Cell),
      let out := FactTransformer.transform now
        ⟨SRC_FACT_COLS, [[v1, v2, v3, v4, v5, v6, m1, m2, m3, m4, m5, m6]]⟩
      out.getCol "fact_id" =
          some [Cell.str (MD5.hexdigest (String.intercalate "|"
            [strip (cellToStr v1), strip (cellToStr v2), strip (cellToStr v3),
             strip (cellToStr v4), strip (cellToStr v5),
             strip (cellToStr v6)]))] ∧
        out.getCol "travel_motive_key" = some [Cell.str (strip (cellToStr v1))] ∧
        out.getCol "population_key" = some [Cell.str (strip (cellToStr v2))] ∧
        out.getCol "travel_mode_key" = some [Cell.str (strip (cellToStr v3))] ∧
        out.getCol "margin_key" = some [Cell.str (strip (cellToStr v4))] ∧
        out.getCol "region_key" = some [Cell.str (strip (cellToStr v5))] ∧
        out.getCol "period_key" = some [Cell.str (strip (cellToStr v6))]) ∧
    (∀ s : String, (MD5.hexdigest s).length = 32 ∧
      ((MD5.hexdigest s).data.all
        fun c => "0123456789abcdef".data.contains c) = true) ∧
    (∀ (n1 n2 : Nat) (v1 v2 v3 v4 v5 v6 a1 a2 a3 a4 a5 a6 b1 b2 b3 b4 b5 b6 : Cell),
      (FactTransformer.transform n1
        ⟨SRC_FACT_COLS, [[v1, v2, v3, v4, v5, v6, a1, a2, a3, a4, a5, a6]]⟩).getCol
          "fact_id" =
      (FactTransformer.transform n2
        ⟨SRC_FACT_COLS, [[v1, v2, v3, v4, v5, v6, b1, b2, b3, b4, b5, b6]]⟩).getCol
          "fact_id") ∧
    ((FactTransformer.transform 0
      ⟨SRC_FACT_COLS,
       [[Cell.str "TM1", Cell.str "P1", Cell.str "M1", Cell.str "MG1",
         Cell.str "R1", Cell.str "2023JJ00", Cell.num 1, Cell.num 2,
         Cell.num 3, Cell.num 4, Cell.num 5, Cell.num 6]]⟩).getCol "fact_id" =
      some [Cell.str (MD5.hexdigest "TM1|P1|M1|MG1|R1|2023JJ00")]) ∧
    MD5.hexdigest "TM1|P1|M1|MG1|R1|2023JJ00" =
      "ba29aa5c52e9980ff10e8fb33a19ee84" := by
  refine ⟨?_, ?_, ?_, by decide, by decide⟩
  · intro now v1 v2 v3 v4 v5 v6 m1 m2 m3 m4 m5 m6
    dsimp only
    rw [factTransform_row]
    simp [Table.getCol, idx_o0, idx_o1, idx_o2, idx_o3, idx_o4, idx_o5,
      idx_o6, fkOut, fkJoin]
  · intro s
    exact ⟨hexdigest_length s, hexdigest_all_hex s⟩
  · intro n1 n2 v1 v2 v3 v4 v5 v6 a1 a2 a3 a4 a5 a6 b1 b2 b3 b4 b5 b6
    rw [factTransform_row, factTransform_row]
    simp [Table.getCol, idx_o0]

/-- Columns surviving a projection all belong to the requested order. -/
theorem selectCols_cols_subset (t : Table) (order : List String) (c : String)
    (hc : c ∈ (Table.selectCols t order).cols) : c ∈ order := by
  have he : (Table.selectCols t order).cols = order.filter t.cols.contains := rfl
  rw [he] at hc
  exact (List.mem_filter.mp hc).1

/-- Claim C2 counterexample: the fact pipeline `transform` does not run
`drop_unused_columns` as its second step — the method is never invoked
by `transform` at all (the step chain in the source is rename, cast,
nulls, fact id, audit, reorder). -/
theorem claim_c2_counterexample :
    ((FactTransformer.transformSteps 0).map Prod.fst ≠
      ["rename_columns", "drop_unused_columns", "cast_types", "handle_nulls",
       "compute_fact_id", "add_audit_columns", "reorder_columns"]) ∧
    "drop_unused_columns" ∉ (FactTransformer.transformSteps 0).map Prod.fst := by
  constructor
  · decide
  · decide

/-- Claim C2 as amended: the fact normalization executes rename, then
foreign-key trimming and metric coercion, then the sentinel replacement
followed by the generic null pass, then fact-id derivation, then the
audit stamp, then the reorder; no drop step executes, and columns
outside the canonical set are removed only by the final reorder
projection. -/
theorem claim_c2_amended_pipeline :
    (∀ now : Nat, (FactTransformer.transformSteps now).map Prod.fst =
      ["rename_columns", "cast_types", "handle_nulls", "compute_fact_id",
       "add_audit_columns", "reorder_columns"]) ∧
    (∀ (now : Nat) (t : Table),
      FactTransformer.transform now t =
        FactTransformer.reorder_columns (FactTransformer.add_audit_columns now
          (FactTransformer.compute_fact_id (FactTransformer.handle_nulls
            (FactTransformer.cast_types (FactTransformer.rename_columns t)))))) ∧
    (∀ (now : Nat) (t : Table) (c : String),
      c ∈ (FactTransformer.transform now t).cols →
        c ∈ FactTransformer.columnOrder) := by
  have h1 : ∀ now : Nat, (FactTransformer.transformSteps now).map Prod.fst =
      ["rename_columns", "cast_types", "handle_nulls", "compute_fact_id",
       "add_audit_columns", "reorder_columns"] := by
    intro now
    rfl
  have hcomp : ∀ (now : Nat) (t : Table),
      FactTransformer.transform now t =
        FactTransformer.reorder_columns (FactTransformer.add_audit_columns now
          (FactTransformer.compute_fact_id (FactTransformer.handle_nulls
            (FactTransformer.cast_types (FactTransformer.rename_columns t))))) := by
    intro now t
    simp only [FactTransformer.transform, FactTransformer.transformSteps,
      List.foldl_cons, List.foldl_nil]
  have h3 : ∀ (now : Nat) (t : Table) (c : String),
      c ∈ (FactTransformer.transform now t).cols →
        c ∈ FactTransformer.columnOrder := by
    intro now t c hc
    rw [hcomp] at hc
    exact selectCols_cols_subset _ _ _ hc
  exact ⟨h1, hcomp, h3⟩

/-- Witness for the amended C2: the canonical-order membership fact is
applied at a concrete table and column. -/
theorem claim_c2_amended_pipeline_witness :
    "fact_id" ∈ FactTransformer.columnOrder :=
  claim_c2_amended_pipeline.2.2 0 ⟨SRC_FACT_COLS, []⟩ "fact_id" (by decide)

/-- A metric input that the claim says normalizes to null: the sentinel
dot, an absent value, or a string unparseable as a number. -/
def badMetricCell (m : Cell) : Prop :=
  m = Cell.str "." ∨ m = Cell.null ∨
    ∃ s, m = Cell.str s ∧ FactTransformer.parseNum s = none

/-- A dimension text input that the claim says normalizes to null. -/
def badTextCell (x : Cell) : Prop :=
  x = Cell.str "" ∨ x = Cell.str " "

/-- Claim C8: after normalization a metric field whose raw value is the
dot sentinel, an absent value, or a string unparseable as a number is
null in the canonical fact row (in every one of the six metric
columns); and a dimension text field (key, title or description) whose
raw value is the empty string or a single space is null in the
canonical dimension row. -/
theorem claim_c8_null_normalization :
    (∀ (now : Nat) (v1 v2 v3 v4 v5 v6 m : Cell), badMetricCell m →
      let out := FactTransformer.transform now
        ⟨SRC_FACT_COLS, [[v1, v2, v3, v4, v5, v6, m, m, m, m, m, m]]⟩
      out.getCol "trips_daily" = some [Cell.null] ∧
      out.getCol "distance_daily" = some [Cell.null] ∧
      out.getCol "time_daily" = some [Cell.null] ∧
      out.getCol "trips_yearly" = some [Cell.null] ∧
      out.getCol "distance_yearly" = some [Cell.null] ∧
      out.getCol "time_yearly" = some [Cell.null]) ∧
    (∀ (now : Nat) (k ti d : Cell),
      (badTextCell k →
        (DimensionTransformer.transform now
          ⟨SRC_DIM_COLS, [[k, ti, d]]⟩).getCol "key" = some [Cell.null]) ∧
      (badTextCell ti →
        (DimensionTransformer.transform now
          ⟨SRC_DIM_COLS, [[k, ti, d]]⟩).getCol "title" = some [Cell.null]) ∧
      (badTextCell d →
        (DimensionTransformer.transform now
          ⟨SRC_DIM_COLS, [[k, ti, d]]⟩).getCol "description" =
            some [Cell.null])) := by
  have hbad : ∀ m : Cell, badMetricCell m → metricOut m = Cell.null := by
    intro m hm
    rcases hm with rfl | rfl | ⟨s, rfl, hs⟩
    · decide
    · decide
    · simp [metricOut, FactTransformer.toNumericCell, hs]
  have htext : ∀ x : Cell, badTextCell x →
      nullPass (DimensionTransformer.cleanCell x) = Cell.null := by
    intro x hx
    rcases hx with rfl | rfl <;> decide
  constructor
  · intro now v1 v2 v3 v4 v5 v6 m hm
    dsimp only
    rw [factTransform_row]
    simp [Table.getCol, idx_o7, idx_o8, idx_o9, idx_o10, idx_o11, idx_o12,
      hbad m hm]
  · intro now k ti d
    refine ⟨fun h => ?_, fun h => ?_, fun h => ?_⟩ <;>
      (rw [dimTransform_row];
       simp [Table.getCol, idx_q0, idx_q1, idx_q2, htext _ h])

/-- Witness for C8: the dot sentinel in a metric field and a single
space in a dimension key field both come out null. -/
theorem claim_c8_null_normalization_witness :
    ((FactTransformer.transform 0
      ⟨SRC_FACT_COLS,
       [[Cell.str "TM1", Cell.str "P1", Cell.str "M1", Cell.str "MG1",
         Cell.str "R1", Cell.str "2023JJ00", Cell.str ".", Cell.str ".",
         Cell.str ".", Cell.str ".", Cell.str ".", Cell.str "."]]⟩).getCol
        "trips_daily" = some [Cell.null]) ∧
    ((DimensionTransformer.transform 0
      ⟨SRC_DIM_COLS,
       [[Cell.str " ", Cell.str "T", Cell.str "D"]]⟩).getCol "key" =
        some [Cell.null]) :=
  ⟨(claim_c8_null_normalization.1 0 (Cell.str "TM1") (Cell.str "P1")
      (Cell.str "M1") (Cell.str "MG1") (Cell.str "R1") (Cell.str "2023JJ00")
      (Cell.str ".") (Or.inl rfl)).1,
   (claim_c8_null_normalization.2 0 (Cell.str " ") (Cell.str "T")
      (Cell.str "D")).1 (Or.inr rfl)⟩

theorem cleanCell_pad (w1 w2 s : String)
    (h1 : w1.data.all isSpaceChar = true)
    (h2 : w2.data.all isSpaceChar = true) :
    DimensionTransformer.cleanCell (Cell.str (w1 ++ s ++ w2)) =
      DimensionTransformer.cleanCell (Cell.str s) := by
  unfold DimensionTransformer.cleanCell
  simp only [cellToStr]
  rw [strip_pad _ _ _ h1 h2]

theorem fkOut_pad (w1 w2 s : String)
    (h1 : w1.data.all isSpaceChar = true)
    (h2 : w2.data.all isSpaceChar = true) :
    fkOut (Cell.str (w1 ++ s ++ w2)) = fkOut (Cell.str s) := by
  unfold fkOut
  simp only [cellToStr]
  rw [strip_pad _ _ _ h1 h2]

/-- Claim C7: dimension and fact normalization are invariant under extra
surrounding whitespace on the key and foreign-key fields — the whole
canonical output (key values, and for facts the `fact_id` as well) is
identical to that of the trimmed input. -/
theorem claim_c7_whitespace_invariance :
    (∀ (now : Nat) (w1 w2 : String), w1.data.all isSpaceChar = true →
      w2.data.all isSpaceChar = true →
      ∀ (k : String) (ti d : Cell),
        DimensionTransformer.transform now
          ⟨SRC_DIM_COLS, [[Cell.str (w1 ++ k ++ w2), ti, d]]⟩ =
        DimensionTransformer.transform now
          ⟨SRC_DIM_COLS, [[Cell.str k, ti, d]]⟩) ∧
    (∀ (now : Nat) (w1 w2 : String), w1.data.all isSpaceChar = true →
      w2.data.all isSpaceChar = true →
      ∀ (s1 s2 s3 s4 s5 s6 : String) (m1 m2 m3 m4 m5 m6 : Cell),
        FactTransformer.transform now
          ⟨SRC_FACT_COLS,
           [[Cell.str (w1 ++ s1 ++ w2), Cell.str (w1 ++ s2 ++ w2),
             Cell.str (w1 ++ s3 ++ w2), Cell.str (w1 ++ s4 ++ w2),
             Cell.str (w1 ++ s5 ++ w2), Cell.str (w1 ++ s6 ++ w2),
             m1, m2, m3, m4, m5, m6]]⟩ =
        FactTransformer.transform now
          ⟨SRC_FACT_COLS,
           [[Cell.str s1, Cell.str s2, Cell.str s3, Cell.str s4,
             Cell.str s5, Cell.str s6, m1, m2, m3, m4, m5, m6]]⟩) := by
  constructor
  · intro now w1 w2 h1 h2 k ti d
    rw [dimTransform_row, dimTransform_row, cleanCell_pad _ _ _ h1 h2]
  · intro now w1 w2 h1 h2 s1 s2 s3 s4 s5 s6 m1 m2 m3 m4 m5 m6
    rw [factTransform_row, factTransform_row]
    unfold fkJoin
    simp only [cellToStr]
    rw [strip_pad _ _ _ h1 h2, strip_pad _ _ _ h1 h2, strip_pad _ _ _ h1 h2,
      strip_pad _ _ _ h1 h2, strip_pad _ _ _ h1 h2, strip_pad _ _ _ h1 h2,
      fkOut_pad _ _ _ h1 h2, fkOut_pad _ _ _ h1 h2, fkOut_pad _ _ _ h1 h2,
      fkOut_pad _ _ _ h1 h2, fkOut_pad _ _ _ h1 h2, fkOut_pad _ _ _ h1 h2]

/-- Witness for C7: a single-space padding around a dimension key and
around the fact foreign keys changes nothing in the canonical outputs. -/
theorem claim_c7_whitespace_invariance_witness :
    (DimensionTransformer.transform 3
      ⟨SRC_DIM_COLS, [[Cell.str (" " ++ "P1" ++ "  "), Cell.str "T",
        Cell.null]]⟩ =
      DimensionTransformer.transform 3
        ⟨SRC_DIM_COLS, [[Cell.str "P1", Cell.str "T", Cell.null]]⟩) ∧
    (FactTransformer.transform 3
      ⟨SRC_FACT_COLS,
       [[Cell.str (" " ++ "TM1" ++ "  "), Cell.str (" " ++ "P1" ++ "  "),
         Cell.str (" " ++ "M1" ++ "  "), Cell.str (" " ++ "MG1" ++ "  "),
         Cell.str (" " ++ "R1" ++ "  "), Cell.str (" " ++ "2023JJ00" ++ "  "),
         Cell.num 1, Cell.num 2, Cell.num 3, Cell.num 4, Cell.num 5,
         Cell.num 6]]⟩ =
      FactTransformer.transform 3
        ⟨SRC_FACT_COLS,
         [[Cell.str "TM1", Cell.str "P1", Cell.str "M1", Cell.str "MG1",
           Cell.str "R1", Cell.str "2023JJ00", Cell.num 1, Cell.num 2,
           Cell.num 3, Cell.num 4, Cell.num 5, Cell.num 6]]⟩) :=
  ⟨claim_c7_whitespace_invariance.1 3 " " "  " (by decide) (by decide) "P1"
      (Cell.str "T") Cell.null,
   claim_c7_whitespace_invariance.2 3 " " "  " (by decide) (by decide)
      "TM1" "P1" "M1" "MG1" "R1" "2023JJ00" (Cell.num 1) (Cell.num 2)
      (Cell.num 3) (Cell.num 4) (Cell.num 5) (Cell.num 6)⟩

/-- Claim C5: the pipeline stages run strictly in the order extract,
transform, validate, load; a validation failure ends the run with the
error before the load stage, leaving the store untouched, and a
validation success leads to exactly one load. -/
theorem claim_c5_pipeline_order
    (metadata : String) (sep : Char) (rawFacts : Table) (now : Nat)
    (db : ETL.DBState) :
    ((ETL.run metadata sep rawFacts now db).1 =
        ["extract", "transform", "validate"] ∨
      (ETL.run metadata sep rawFacts now db).1 =
        ["extract", "transform", "validate", "load"]) ∧
    (∀ e, ETL.validateStage (ETL.transformStage now
        (ETL.extractStage metadata sep rawFacts)) = .error e →
      ETL.run metadata sep rawFacts now db =
        (["extract", "transform", "validate"], db, .error e)) ∧
    (ETL.validateStage (ETL.transformStage now
        (ETL.extractStage metadata sep rawFacts)) = .ok () →
      ETL.run metadata sep rawFacts now db =
        (["extract", "transform", "validate", "load"],
         (ETL.loadStage (ETL.transformStage now
           (ETL.extractStage metadata sep rawFacts)) db).1,
         .ok (ETL.loadStage (ETL.transformStage now
           (ETL.extractStage metadata sep rawFacts)) db).2)) := by
  have hrun : ETL.run metadata sep rawFacts now db =
      (match ETL.validateStage (ETL.transformStage now
          (ETL.extractStage metadata sep rawFacts)) with
       | .error err => (["extract", "transform", "validate"], db, .error err)
       | .ok _ =>
         (["extract", "transform", "validate", "load"],
          (ETL.loadStage (ETL.transformStage now
            (ETL.extractStage metadata sep rawFacts)) db).1,
          .ok (ETL.loadStage (ETL.transformStage now
            (ETL.extractStage metadata sep rawFacts)) db).2)) := by
    simp only [ETL.run]
  cases h : ETL.validateStage (ETL.transformStage now
      (ETL.extractStage metadata sep rawFacts)) with
  | error e =>
    rw [h] at hrun
    refine ⟨Or.inl (by rw [hrun]), ?_, ?_⟩
    · intro e2 he2
      cases he2
      rw [hrun]
    · intro hok
      cases hok
  | ok u =>
    cases u
    rw [h] at hrun
    refine ⟨Or.inr (by rw [hrun]), ?_, fun _ => by rw [hrun]⟩
    intro e2 he2
    cases he2

/-- Witness for C5: a run whose metadata has no sections fails
validation (missing dimensions) and ends after the validate stage with
the store unchanged. -/
theorem claim_c5_pipeline_order_witness :
    ETL.run "" ';' ⟨[], []⟩ 0 ⟨[], []⟩ =
      (["extract", "transform", "validate"], (⟨[], []⟩ : ETL.DBState),
       .error (.keyError "TravelMotives")) :=
  (claim_c5_pipeline_order "" ';' ⟨[], []⟩ 0 ⟨[], []⟩).2.1
    (Validator.ValErr.keyError "TravelMotives") (by rfl)

/-! ## Parser lemmas -/

theorem getD_map_of_lt {α β : Type} (f : α → β) (l : List α) (i : Nat)
    (h : i < l.length) (d : β) (e : α) :
    (l.map f).getD i d = f (l.getD i e) := by
  rw [List.getD_eq_getElem?_getD, List.getD_eq_getElem?_getD,
    List.getElem?_map, List.getElem?_eq_getElem h]
  rfl

theorem getD_mem_of_lt {α : Type} (l : List α) (i : Nat) (d : α)
    (h : i < l.length) : l.getD i d ∈ l := by
  rw [List.getD_eq_getElem?_getD, List.getElem?_eq_getElem h]
  exact List.getElem_mem h

theorem foldl_fun_congr {α β : Type} (f g : β → α → β) (l : List α)
    (a : β) (h : ∀ (b : β) (x : α), x ∈ l → f b x = g b x) :
    l.foldl f a = l.foldl g a := by
  induction l generalizing a with
  | nil => rfl
  | cons x xs ih =>
    simp only [List.foldl_cons]
    rw [h a x (List.mem_cons_self x xs)]
    exact ih _ fun b y hy => h b y (List.mem_cons_of_mem x hy)

theorem filterMap_lineOffsetsAux {γ : Type} (h : String → Option γ) :
    ∀ (ls : List String) (off : Nat),
      (MetadataParser.lineOffsetsAux off ls).filterMap (fun p => h p.2) =
        ls.filterMap h := by
  intro ls
  induction ls with
  | nil => intro off; rfl
  | cons l rest ih =>
    intro off
    simp only [MetadataParser.lineOffsetsAux, List.filterMap_cons]
    rw [ih]

theorem headerLines_names (content : String) :
    (MetadataParser.headerLines content).map (fun pm => pm.2.2) =
      MetadataParser.findSections content := by
  unfold MetadataParser.headerLines MetadataParser.findSections
    MetadataParser.lineOffsets
  rw [List.map_filterMap]
  have : ∀ p : Nat × String,
      ((MetadataParser.headerName p.2).map fun n => (p.1, p.2, n)).map
        (fun pm => pm.2.2) = MetadataParser.headerName p.2 := by
    intro p
    cases MetadataParser.headerName p.2 <;> rfl
  simp only [this]
  exact filterMap_lineOffsetsAux _ _ 0

/-- Provision under which the slicing of `parse` is well behaved: the
first occurrence in the document of each quoted section marker followed
by a newline is exactly the start of that marker's own header line. -/
def MarkersLocatable (content : String) : Prop :=
  ∀ pm ∈ MetadataParser.headerLines content,
    MetadataParser.findSubstr content ("\"" ++ pm.2.2 ++ "\"" ++ "\n") =
      some pm.1

/-- A one-section document separating the code's behavior from the
claimed slicing. -/
def exDocC3 : String := "\"Periods\"\nkey;title\n2023JJ00;Year\n"

/-- A two-section document whose first data row carries a quoted field
containing the separator. -/
def exDocQuoted : String :=
  "\"Alpha\"\nkey;title\nA1;\"One;Two\"\n\"Beta\"\nkey;title\nB1;Three\n"

/-- Claim C3 counterexample: on a well-formed one-section document the
parser takes its column names from the tabular header row of a slice
that STARTS AT the marker line (the skipped line being the marker
itself), whereas the slicing described by the claim — body between the
end of the header line and the next header, with one line skipped —
would discard the tabular header row and use the first data row as
column names; the two disagree, so the claim as stated is false of the
code. -/
theorem claim_c3_counterexample :
    MetadataParser.parse ';' exDocC3 =
      [("Periods", ⟨["key", "title"], [[some "2023JJ00", some "Year"]]⟩)] ∧
    MetadataParser.claimSliceParse ';' exDocC3 =
      [("Periods", ⟨["2023JJ00", "Year"], []⟩)] ∧
    MetadataParser.claimSliceParse ';' exDocC3 ≠
      MetadataParser.parse ';' exDocC3 := by
  refine ⟨by decide, by decide, by decide⟩

/-- Claim C3 as amended: the parser finds all header lines first, and —
whenever each quoted marker followed by a newline first occurs at its
own header line — the section body of header `i` is the document slice
from the START of header `i`'s marker line to the start of header
`i+1`'s marker line (document end for the last header), with exactly one
line (the marker line) skipped before delimited parsing, so the tabular
header row supplies the column names; quoted fields containing the
separator are honoured. -/
theorem claim_c3_amended_slicing :
    (∀ (sep : Char) (content : String), MarkersLocatable content →
      MetadataParser.parse sep content =
        MetadataParser.amendedSliceParse sep content) ∧
    MetadataParser.parse ';' exDocQuoted =
      [("Alpha", ⟨["key", "title"], [[some "A1", some "One;Two"]]⟩),
       ("Beta", ⟨["key", "title"], [[some "B1", some "Three"]]⟩)] := by
  constructor
  · intro sep content hloc
    simp only [MetadataParser.parse, MetadataParser.amendedSliceParse]
    have hsec : MetadataParser.findSections content =
        (MetadataParser.headerLines content).map (fun pm => pm.2.2) :=
      (headerLines_names content).symm
    have hlen : (MetadataParser.findSections content).length =
        (MetadataParser.headerLines content).length := by
      rw [hsec, List.length_map]
    rw [hlen]
    apply foldl_fun_congr
    intro acc i hi
    rw [List.mem_range] at hi
    have hgetName : ∀ j, j < (MetadataParser.headerLines content).length →
        (MetadataParser.findSections content).getD j "" =
          ((MetadataParser.headerLines content).getD j (0, "", "")).2.2 := by
      intro j hj
      rw [hsec]
      exact getD_map_of_lt _ _ j hj "" (0, "", "")
    have hfind : ∀ j, j < (MetadataParser.headerLines content).length →
        MetadataParser.findSubstr content
          ("\"" ++ ((MetadataParser.headerLines content).getD j (0, "", "")).2.2
            ++ "\"" ++ "\n") =
          some ((MetadataParser.headerLines content).getD j (0, "", "")).1 := by
      intro j hj
      exact hloc _ (getD_mem_of_lt _ j (0, "", "") hj)
    rw [hgetName i hi, hfind i hi]
    by_cases hnext : i + 1 < (MetadataParser.headerLines content).length
    · rw [if_pos hnext, if_pos hnext, hgetName (i + 1) hnext,
        hfind (i + 1) hnext]
    · rw [if_neg hnext, if_neg hnext]
  · decide

/-- Witness for the amended C3: the proviso holds of the quoted example
document and the equality of the two parses is obtained from it. -/
theorem claim_c3_amended_slicing_witness :
    MetadataParser.parse ';' exDocQuoted =
      MetadataParser.amendedSliceParse ';' exDocQuoted :=
  claim_c3_amended_slicing.1 ';' exDocQuoted (by
    unfold MarkersLocatable
    decide)

/-- Membership through a dictionary-style update. -/
theorem assocUpdate_fst {α : Type} (l : List (String × α)) (k : String)
    (v : α) : ∀ p ∈ assocUpdate l k v, p.1 = k ∨ p ∈ l := by
  intro p hp
  unfold assocUpdate at hp
  by_cases hany : l.any (fun q => q.1 == k) = true
  · rw [if_pos hany] at hp
    rw [List.mem_map] at hp
    obtain ⟨q, hq, hpq⟩ := hp
    by_cases hqk : q.1 == k
    · rw [if_pos hqk] at hpq
      exact Or.inl (by rw [← hpq])
    · rw [if_neg hqk] at hpq
      exact Or.inr (hpq ▸ hq)
  · rw [if_neg hany] at hp
    rcases List.mem_append.mp hp with h | h
    · exact Or.inr h
    · rw [List.mem_singleton] at h
      exact Or.inl (by rw [h])

/-- A document with a malformed middle section between two well-formed
ones: the Broken section's third line has four fields against a
two-field header. -/
def exDocC9 : String :=
  "\"Alpha\"\nkey;title\nA1;One\n\"Broken\"\nkey;title\nB1;Two;X;Y\n\"Gamma\"\nkey;title\nG1;Three\n"

/-- Claim C9: a per-section parse failure only omits that section — any
parsed section name comes from the found headers, parsing is total, and
the concrete document with one malformed and two well-formed sections
parses to exactly the two well-formed sections, the malformed block
failing with a tokenizer error. -/
theorem claim_c9_partial_section_tolerance :
    (∀ (sep : Char) (content : String),
      ∀ p ∈ MetadataParser.parse sep content,
        p.1 ∈ MetadataParser.findSections content) ∧
    MetadataParser.findSections exDocC9 = ["Alpha", "Broken", "Gamma"] ∧
    MetadataParser.parse ';' exDocC9 =
      [("Alpha", ⟨["key", "title"], [[some "A1", some "One"]]⟩),
       ("Gamma", ⟨["key", "title"], [[some "G1", some "Three"]]⟩)] ∧
    MetadataParser.readCsv ';'
        "\"Broken\"\nkey;title\nB1;Two;X;Y" = .error "ParserError" := by
  refine ⟨?_, by decide, by decide, rfl⟩
  intro sep content
  simp only [MetadataParser.parse]
  refine List.foldlRecOn
    (motive := fun (acc : List (String × MetadataParser.Csv)) =>
      ∀ p ∈ acc, p.1 ∈ MetadataParser.findSections content)
    _ _ _ ?_ ?_
  · intro p hp
    cases hp
  · intro acc hacc i hi p hp
    rw [List.mem_range] at hi
    split at hp
    · exact hacc p hp
    · split at hp
      · rcases assocUpdate_fst acc _ _ p hp with h | h
        · rw [h]
          exact getD_mem_of_lt _ i "" hi
        · exact hacc p h
      · exact hacc p hp

/-- Witness for C9: the totality conjunct applied at the concrete
malformed document and its first surviving section. -/
theorem claim_c9_partial_section_tolerance_witness :
    ("Alpha", (⟨["key", "title"], [[some "A1", some "One"]]⟩ :
        MetadataParser.Csv)).1 ∈ MetadataParser.findSections exDocC9 :=
  claim_c9_partial_section_tolerance.1 ';' exDocC9
    ("Alpha", ⟨["key", "title"], [[some "A1", some "One"]]⟩) (by decide)

/-! ## Validator lemmas -/

theorem bindE_ok {ε α β : Type} (v : α) (f : α → Except ε β) :
    (Except.ok v >>= f) = f v := rfl

theorem bindE_err {ε α β : Type} (e : ε) (f : α → Except ε β) :
    ((Except.error e : Except ε α) >>= f) = .error e := rfl

theorem mapM_lookupKeys_error (dims : List (String × Table)) :
    ∀ names : List String, (∃ n ∈ names, dims.lookup n = none) →
      ∃ k, (names.mapM (Validator.lookupKeys dims) :
        Except Validator.ValErr (List (List Cell))) = .error (.keyError k) := by
  intro names
  induction names with
  | nil => rintro ⟨n, hn, -⟩; cases hn
  | cons n ns ih =>
    rintro ⟨n2, hn2, hnone⟩
    rw [List.mapM_cons]
    rcases hl : dims.lookup n with _ | t
    · refine ⟨n, ?_⟩
      have hstep : Validator.lookupKeys dims n = .error (.keyError n) := by
        simp [Validator.lookupKeys, hl]
      rw [hstep, bindE_err]
    · cases hn2 with
      | head =>
        rw [hl] at hnone
        cases hnone
      | tail _ hmem =>
        rcases hcol : t.getCol "key" with _ | vs
        · refine ⟨"key", ?_⟩
          have hstep : Validator.lookupKeys dims n = .error (.keyError "key") := by
            simp [Validator.lookupKeys, hl, hcol]
          rw [hstep, bindE_err]
        · obtain ⟨k, hk⟩ := ih ⟨n2, hmem, hnone⟩
          refine ⟨k, ?_⟩
          have hstep : Validator.lookupKeys dims n = .ok vs := by
            simp [Validator.lookupKeys, hl, hcol]
          rw [hstep, bindE_ok, hk, bindE_err]

/-- Claim C10: the fact schema requires all six dimension tables; when
one is absent, `validate_fact` fails with the dictionary lookup error
raised while building the schema — uniformly in the fact table, so no
validation rule is ever consulted — while dimension validation alone
passes over whatever subset of tables is present. -/
theorem claim_c10_missing_dimension_lookup :
    (∀ (dims : List (String × Table)) (name : String),
      name ∈ Validator.REQUIRED_DIMS → dims.lookup name = none →
      ∃ k, ∀ fact : Table,
        Validator.validateFact dims fact = .error (.keyError k)) ∧
    (∀ dims : List (String × Table),
      (∀ p ∈ dims, Validator.validateDimension p.1 p.2 = .ok ()) →
      Validator.validateDimensions dims = .ok ()) := by
  constructor
  · intro dims name hreq hnone
    obtain ⟨k, hk⟩ :=
      mapM_lookupKeys_error dims Validator.REQUIRED_DIMS ⟨name, hreq, hnone⟩
    refine ⟨k, fun fact => ?_⟩
    unfold Validator.validateFact Validator.buildFactKeys
    rw [hk]
    rfl
  · intro dims h
    unfold Validator.validateDimensions
    induction dims with
    | nil => rfl
    | cons p ps ih =>
      rw [List.forM_cons', h p (List.mem_cons_self p ps)]
      exact ih fun q hq => h q (List.mem_cons_of_mem p hq)

/-- Witness for C10: with the Periods section absent the fact
validation raises the lookup error for the first missing dimension in
schema order, for an arbitrary fact table; and the five remaining
(valid) dimensions still pass dimension validation. -/
theorem claim_c10_missing_dimension_lookup_witness :
    (∃ k, ∀ fact : Table,
      Validator.validateFact
        [("TravelMotives", ⟨["key", "title", "description", "ingested_at"],
          [[Cell.str "TM1", Cell.str "T", Cell.null, Cell.time 1]]⟩)] fact =
        .error (.keyError k)) ∧
    Validator.validateDimensions
      [("TravelMotives", ⟨["key", "title", "description", "ingested_at"],
        [[Cell.str "TM1", Cell.str "T", Cell.null, Cell.time 1]]⟩)] =
      .ok () := by
  constructor
  · exact claim_c10_missing_dimension_lookup.1 _ "Population" (by decide)
      (by decide)
  · refine claim_c10_missing_dimension_lookup.2 _ ?_
    intro p hp
    rw [List.mem_singleton] at hp
    subst hp
    rfl

/-! ## C4: validation success characterised -/

/-- A cell of a canonical text column: a string or missing. -/
def strOrNull (v : Cell) : Bool :=
  !Validator.nonNull v || Validator.isStrCell v

/-- Canonical shape of a dimension table: the four canonical columns are
present and the three text columns hold strings or missing values
(extra columns may also be present). -/
def DimShape (t : Table) : Prop :=
  ∃ ks ts ds ing,
    t.getCol "key" = some ks ∧ t.getCol "title" = some ts ∧
    t.getCol "description" = some ds ∧ t.getCol "ingested_at" = some ing ∧
    (∀ v ∈ ks, strOrNull v = true) ∧ (∀ v ∈ ts, strOrNull v = true) ∧
    (∀ v ∈ ds, strOrNull v = true)

/-- The dimension rules in the words of the claim: key non-null and
unique, title non-null, ingested_at non-null (description free). -/
def ClaimDimOK (t : Table) : Prop :=
  (∀ v ∈ (t.getCol "key").getD [], v ≠ Cell.null) ∧
  ((t.getCol "key").getD []).Nodup ∧
  (∀ v ∈ (t.getCol "title").getD [], v ≠ Cell.null) ∧
  (∀ v ∈ (t.getCol "ingested_at").getD [], v ≠ Cell.null)

theorem nonNull_iff (v : Cell) :
    Validator.nonNull v = true ↔ v ≠ Cell.null := by
  cases v <;> simp [Validator.nonNull]

theorem isStr_of_strOrNull {v : Cell} (h : strOrNull v = true)
    (hn : v ≠ Cell.null) : Validator.isStrCell v = true := by
  cases v <;> simp_all [strOrNull, Validator.nonNull, Validator.isStrCell]

theorem checkColumn_ok_iff (table : String) (t : Table) (col rule : String)
    (p : List Cell → Bool) (vs : List Cell) (h : t.getCol col = some vs) :
    (Validator.checkColumn table t col rule p = .ok ()) ↔ p vs = true := by
  unfold Validator.checkColumn
  rw [h]
  by_cases hp : p vs = true
  · simp [hp]
  · simp [hp]

theorem except_seq_ok {ε : Type} (a b : Except ε Unit) :
    ((a >>= fun _ => b) = .ok ()) ↔ (a = .ok () ∧ b = .ok ()) := by
  cases a with
  | error e => simp [Bind.bind, Except.bind]
  | ok u => cases u; simp [Bind.bind, Except.bind]

theorem validateDimension_ok_iff (name : String) (t : Table)
    (h : DimShape t) :
    Validator.validateDimension name t = .ok () ↔ ClaimDimOK t := by
  obtain ⟨ks, ts, ds, ing, hk, ht, hd, hi, hks, hts, hds⟩ := h
  unfold Validator.validateDimension
  rw [except_seq_ok, except_seq_ok, except_seq_ok, except_seq_ok,
    except_seq_ok, except_seq_ok,
    checkColumn_ok_iff _ _ _ _ _ _ hk, checkColumn_ok_iff _ _ _ _ _ _ hk,
    checkColumn_ok_iff _ _ _ _ _ _ hk, checkColumn_ok_iff _ _ _ _ _ _ ht,
    checkColumn_ok_iff _ _ _ _ _ _ ht, checkColumn_ok_iff _ _ _ _ _ _ hd,
    checkColumn_ok_iff _ _ _ _ _ _ hi]
  unfold ClaimDimOK
  rw [hk, ht, hi]
  simp only [Option.getD_some, List.all_eq_true]
  constructor
  · rintro ⟨hkn, -, hku, htn, -, -, hin⟩
    exact ⟨fun v hv => (nonNull_iff v).mp (hkn v hv),
      decide_eq_true_eq.mp hku,
      fun v hv => (nonNull_iff v).mp (htn v hv),
      fun v hv => (nonNull_iff v).mp (hin v hv)⟩
  · rintro ⟨hkn, hku, htn, hin⟩
    refine ⟨fun v hv => (nonNull_iff v).mpr (hkn v hv),
      fun v hv => isStr_of_strOrNull (hks v hv) (hkn v hv),
      decide_eq_true_eq.mpr hku,
      fun v hv => (nonNull_iff v).mpr (htn v hv),
      fun v hv => isStr_of_strOrNull (hts v hv) (htn v hv),
      fun v hv => ?_,
      fun v hv => (nonNull_iff v).mpr (hin v hv)⟩
    exact hds v hv

theorem validateDimensions_ok_iff (dims : List (String × Table))
    (h : ∀ p ∈ dims, DimShape p.2) :
    Validator.validateDimensions dims = .ok () ↔
      ∀ p ∈ dims, ClaimDimOK p.2 := by
  unfold Validator.validateDimensions
  induction dims with
  | nil =>
    constructor
    · intro _ p hp
      cases hp
    · intro _
      rfl
  | cons p ps ih =>
    rw [List.forM_cons', except_seq_ok,
      validateDimension_ok_iff p.1 p.2 (h p (List.mem_cons_self p ps)),
      ih fun q hq => h q (List.mem_cons_of_mem p hq)]
    simp [List.forall_mem_cons]

theorem pureE_ok {ε : Type} : (pure () : Except ε Unit) = Except.ok () := rfl

theorem lookup_mem {α : Type} {l : List (String × α)} {k : String} {v : α}
    (h : l.lookup k = some v) : (k, v) ∈ l := by
  induction l with
  | nil => cases h
  | cons p ps ih =>
    obtain ⟨a, b⟩ := p
    unfold List.lookup at h
    cases hba : (k == a) with
    | true =>
      rw [hba] at h
      cases h
      have hka : k = a := eq_of_beq hba
      subst hka
      exact List.mem_cons_self _ _
    | false =>
      rw [hba] at h
      exact List.mem_cons_of_mem _ (ih h)

theorem validateFactChecks_ok_iff
    (ks1 ks2 ks3 ks4 ks5 ks6 fid fk1 fk2 fk3 fk4 fk5 fk6
      me1 me2 me3 me4 me5 me6 ing : List Cell) (fact : Table)
    (hfid : fact.getCol "fact_id" = some fid)
    (hc1 : fact.getCol "travel_motive_key" = some fk1)
    (hc2 : fact.getCol "population_key" = some fk2)
    (hc3 : fact.getCol "travel_mode_key" = some fk3)
    (hc4 : fact.getCol "margin_key" = some fk4)
    (hc5 : fact.getCol "region_key" = some fk5)
    (hc6 : fact.getCol "period_key" = some fk6)
    (hm1 : fact.getCol "trips_daily" = some me1)
    (hm2 : fact.getCol "distance_daily" = some me2)
    (hm3 : fact.getCol "time_daily" = some me3)
    (hm4 : fact.getCol "trips_yearly" = some me4)
    (hm5 : fact.getCol "distance_yearly" = some me5)
    (hm6 : fact.getCol "time_yearly" = some me6)
    (hing : fact.getCol "ingested_at" = some ing) :
    Validator.validateFactChecks [ks1, ks2, ks3, ks4, ks5, ks6] fact =
        .ok () ↔
      (fid.all (fun v => Validator.nonNull v && Validator.isStrCell v) = true ∧
       fk1.all (fun v => Validator.nonNull v && Validator.isStrCell v &&
         decide (v ∈ ks1)) = true ∧
       fk2.all (fun v => Validator.nonNull v && Validator.isStrCell v &&
         decide (v ∈ ks2)) = true ∧
       fk3.all (fun v => Validator.nonNull v && Validator.isStrCell v &&
         decide (v ∈ ks3)) = true ∧
       fk4.all (fun v => Validator.nonNull v && Validator.isStrCell v &&
         decide (v ∈ ks4)) = true ∧
       fk5.all (fun v => Validator.nonNull v && Validator.isStrCell v &&
         decide (v ∈ ks5)) = true ∧
       fk6.all (fun v => Validator.nonNull v && Validator.isStrCell v &&
         decide (v ∈ ks6)) = true ∧
       me1.all (fun v => !Validator.nonNull v || Validator.isNumCell v) = true ∧
       me2.all (fun v => !Validator.nonNull v || Validator.isNumCell v) = true ∧
       me3.all (fun v => !Validator.nonNull v || Validator.isNumCell v) = true ∧
       me4.all (fun v => !Validator.nonNull v || Validator.isNumCell v) = true ∧
       me5.all (fun v => !Validator.nonNull v || Validator.isNumCell v) = true ∧
       me6.all (fun v => !Validator.nonNull v || Validator.isNumCell v) = true ∧
       ing.all Validator.nonNull = true) := by
  unfold Validator.validateFactChecks
  simp only [FactTransformer.FK_COLUMNS, FactTransformer.METRIC_COLUMNS,
    List.zip_cons_cons, List.zip_nil_right, List.forM_cons', List.forM_nil',
    except_seq_ok, pureE_ok,
    checkColumn_ok_iff _ _ _ _ _ _ hfid,
    checkColumn_ok_iff _ _ _ _ _ _ hc1, checkColumn_ok_iff _ _ _ _ _ _ hc2,
    checkColumn_ok_iff _ _ _ _ _ _ hc3, checkColumn_ok_iff _ _ _ _ _ _ hc4,
    checkColumn_ok_iff _ _ _ _ _ _ hc5, checkColumn_ok_iff _ _ _ _ _ _ hc6,
    checkColumn_ok_iff _ _ _ _ _ _ hm1, checkColumn_ok_iff _ _ _ _ _ _ hm2,
    checkColumn_ok_iff _ _ _ _ _ _ hm3, checkColumn_ok_iff _ _ _ _ _ _ hm4,
    checkColumn_ok_iff _ _ _ _ _ _ hm5, checkColumn_ok_iff _ _ _ _ _ _ hm6,
    checkColumn_ok_iff _ _ _ _ _ _ hing,
    and_true, true_and, and_assoc]

theorem except_not_ok {ε : Type} (a : Except ε Unit) (h : a ≠ .ok ()) :
    ∃ e, a = .error e := by
  cases a with
  | error e => exact ⟨e, rfl⟩
  | ok u => cases u; exact absurd rfl h

theorem all_nonNull_iff (l : List Cell) :
    l.all Validator.nonNull = true ↔ ∀ v ∈ l, v ≠ Cell.null := by
  rw [List.all_eq_true]
  exact ⟨fun h v hv => (nonNull_iff v).mp (h v hv),
    fun h v hv => (nonNull_iff v).mpr (h v hv)⟩

theorem all_nn_str_iff (l : List Cell)
    (hS : ∀ v ∈ l, strOrNull v = true) :
    l.all (fun v => Validator.nonNull v && Validator.isStrCell v) = true ↔
      ∀ v ∈ l, v ≠ Cell.null := by
  rw [List.all_eq_true]
  constructor
  · intro h v hv
    exact (nonNull_iff v).mp (Bool.and_eq_true _ _ |>.mp (h v hv)).1
  · intro h v hv
    exact Bool.and_eq_true _ _ |>.mpr
      ⟨(nonNull_iff v).mpr (h v hv), isStr_of_strOrNull (hS v hv) (h v hv)⟩

theorem all_metric_iff (l : List Cell) :
    l.all (fun v => !Validator.nonNull v || Validator.isNumCell v) = true ↔
      ∀ v ∈ l, v = Cell.null ∨ Validator.isNumCell v = true := by
  rw [List.all_eq_true]
  constructor
  · intro h v hv
    rcases Bool.or_eq_true _ _ |>.mp (h v hv) with hn | hs
    · left
      cases v <;> simp_all [Validator.nonNull]
    · right
      exact hs
  · intro h v hv
    rcases h v hv with rfl | hs
    · rfl
    · exact Bool.or_eq_true _ _ |>.mpr (Or.inr hs)

theorem all_fk_iff (l ks : List Cell)
    (hS : ∀ v ∈ l, strOrNull v = true)
    (hksN : ∀ v ∈ ks, v ≠ Cell.null) :
    l.all (fun v => Validator.nonNull v && Validator.isStrCell v &&
      decide (v ∈ ks)) = true ↔ ∀ v ∈ l, v ∈ ks := by
  rw [List.all_eq_true]
  constructor
  · intro h v hv
    exact decide_eq_true_eq.mp (Bool.and_eq_true _ _ |>.mp (h v hv)).2
  · intro h v hv
    have hm := h v hv
    refine Bool.and_eq_true _ _ |>.mpr
      ⟨Bool.and_eq_true _ _ |>.mpr
        ⟨(nonNull_iff v).mpr ?_, isStr_of_strOrNull (hS v hv) ?_⟩,
       decide_eq_true_eq.mpr hm⟩
    · intro hnull
      subst hnull
      exact hksN _ hm rfl
    · intro hnull
      subst hnull
      exact hksN _ hm rfl

/-- Claim C4: validation succeeds exactly when every dimension table has
non-null unique keys, non-null titles and non-null audit stamps, and the
fact table has a non-null `fact_id`, each foreign-key value present in
the key column of its corresponding dimension, metrics null or numeric,
and a non-null audit stamp; any violated rule makes validation raise an
error rather than return a partial result. -/
theorem claim_c4_validation_iff
    (dims : List (String × Table)) (fact : Table)
    (t1 t2 t3 t4 t5 t6 : Table)
    (ks1 ks2 ks3 ks4 ks5 ks6 : List Cell)
    (hl1 : dims.lookup "TravelMotives" = some t1)
    (hk1 : t1.getCol "key" = some ks1)
    (hl2 : dims.lookup "Population" = some t2)
    (hk2 : t2.getCol "key" = some ks2)
    (hl3 : dims.lookup "TravelModes" = some t3)
    (hk3 : t3.getCol "key" = some ks3)
    (hl4 : dims.lookup "Margins" = some t4)
    (hk4 : t4.getCol "key" = some ks4)
    (hl5 : dims.lookup "RegionCharacteristics" = some t5)
    (hk5 : t5.getCol "key" = some ks5)
    (hl6 : dims.lookup "Periods" = some t6)
    (hk6 : t6.getCol "key" = some ks6)
    (hdims : ∀ p ∈ dims, DimShape p.2)
    (fid fk1 fk2 fk3 fk4 fk5 fk6 me1 me2 me3 me4 me5 me6 ing : List Cell)
    (hfid : fact.getCol "fact_id" = some fid)
    (hc1 : fact.getCol "travel_motive_key" = some fk1)
    (hc2 : fact.getCol "population_key" = some fk2)
    (hc3 : fact.getCol "travel_mode_key" = some fk3)
    (hc4 : fact.getCol "margin_key" = some fk4)
    (hc5 : fact.getCol "region_key" = some fk5)
    (hc6 : fact.getCol "period_key" = some fk6)
    (hm1 : fact.getCol "trips_daily" = some me1)
    (hm2 : fact.getCol "distance_daily" = some me2)
    (hm3 : fact.getCol "time_daily" = some me3)
    (hm4 : fact.getCol "trips_yearly" = some me4)
    (hm5 : fact.getCol "distance_yearly" = some me5)
    (hm6 : fact.getCol "time_yearly" = some me6)
    (hing : fact.getCol "ingested_at" = some ing)
    (hfidS : ∀ v ∈ fid, strOrNull v = true)
    (hs1 : ∀ v ∈ fk1, strOrNull v = true)
    (hs2 : ∀ v ∈ fk2, strOrNull v = true)
    (hs3 : ∀ v ∈ fk3, strOrNull v = true)
    (hs4 : ∀ v ∈ fk4, strOrNull v = true)
    (hs5 : ∀ v ∈ fk5, strOrNull v = true)
    (hs6 : ∀ v ∈ fk6, strOrNull v = true) :
    (Validator.validateAll dims fact = .ok () ↔
      ((∀ p ∈ dims, ClaimDimOK p.2) ∧
       (∀ v ∈ fid, v ≠ Cell.null) ∧
       (∀ v ∈ fk1, v ∈ ks1) ∧ (∀ v ∈ fk2, v ∈ ks2) ∧
       (∀ v ∈ fk3, v ∈ ks3) ∧ (∀ v ∈ fk4, v ∈ ks4) ∧
       (∀ v ∈ fk5, v ∈ ks5) ∧ (∀ v ∈ fk6, v ∈ ks6) ∧
       (∀ v ∈ me1, v = Cell.null ∨ Validator.isNumCell v = true) ∧
       (∀ v ∈ me2, v = Cell.null ∨ Validator.isNumCell v = true) ∧
       (∀ v ∈ me3, v = Cell.null ∨ Validator.isNumCell v = true) ∧
       (∀ v ∈ me4, v = Cell.null ∨ Validator.isNumCell v = true) ∧
       (∀ v ∈ me5, v = Cell.null ∨ Validator.isNumCell v = true) ∧
       (∀ v ∈ me6, v = Cell.null ∨ Validator.isNumCell v = true) ∧
       (∀ v ∈ ing, v ≠ Cell.null))) ∧
    (Validator.validateAll dims fact ≠ .ok () →
      ∃ e, Validator.validateAll dims fact = .error e) := by
  refine ⟨?_, fun h => except_not_ok _ h⟩
  have hbuild : Validator.buildFactKeys dims =
      .ok [ks1, ks2, ks3, ks4, ks5, ks6] := by
    have e1 : Validator.lookupKeys dims "TravelMotives" = .ok ks1 := by
      simp [Validator.lookupKeys, hl1, hk1]
    have e2 : Validator.lookupKeys dims "Population" = .ok ks2 := by
      simp [Validator.lookupKeys, hl2, hk2]
    have e3 : Validator.lookupKeys dims "TravelModes" = .ok ks3 := by
      simp [Validator.lookupKeys, hl3, hk3]
    have e4 : Validator.lookupKeys dims "Margins" = .ok ks4 := by
      simp [Validator.lookupKeys, hl4, hk4]
    have e5 : Validator.lookupKeys dims "RegionCharacteristics" = .ok ks5 := by
      simp [Validator.lookupKeys, hl5, hk5]
    have e6 : Validator.lookupKeys dims "Periods" = .ok ks6 := by
      simp [Validator.lookupKeys, hl6, hk6]
    unfold Validator.buildFactKeys Validator.REQUIRED_DIMS
    rw [List.mapM_cons, e1, bindE_ok, List.mapM_cons, e2, bindE_ok,
      List.mapM_cons, e3, bindE_ok, List.mapM_cons, e4, bindE_ok,
      List.mapM_cons, e5, bindE_ok, List.mapM_cons, e6, bindE_ok,
      List.mapM_nil]
    rfl
  have hvfact : Validator.validateFact dims fact =
      Validator.validateFactChecks [ks1, ks2, ks3, ks4, ks5, ks6] fact := by
    unfold Validator.validateFact
    rw [hbuild, bindE_ok]
  unfold Validator.validateAll
  rw [except_seq_ok, hvfact, validateDimensions_ok_iff dims hdims,
    validateFactChecks_ok_iff ks1 ks2 ks3 ks4 ks5 ks6 fid fk1 fk2 fk3 fk4
      fk5 fk6 me1 me2 me3 me4 me5 me6 ing fact hfid hc1 hc2 hc3 hc4 hc5 hc6
      hm1 hm2 hm3 hm4 hm5 hm6 hing]
  constructor
  · rintro ⟨hdall, hfidB, h1B, h2B, h3B, h4B, h5B, h6B, hq1, hq2, hq3, hq4,
      hq5, hq6, hingB⟩
    have hkeysN : ∀ (t : Table) (ks : List Cell) (name : String),
        dims.lookup name = some t → t.getCol "key" = some ks →
        ∀ v ∈ ks, v ≠ Cell.null := by
      intro t ks name hlk hkk v hv
      have hmem := lookup_mem hlk
      have hclaim := hdall _ hmem
      have := hclaim.1
      rw [hkk] at this
      exact this v hv
    refine ⟨hdall, (all_nn_str_iff fid hfidS).mp hfidB,
      (all_fk_iff fk1 ks1 hs1 (hkeysN t1 ks1 _ hl1 hk1)).mp h1B,
      (all_fk_iff fk2 ks2 hs2 (hkeysN t2 ks2 _ hl2 hk2)).mp h2B,
      (all_fk_iff fk3 ks3 hs3 (hkeysN t3 ks3 _ hl3 hk3)).mp h3B,
      (all_fk_iff fk4 ks4 hs4 (hkeysN t4 ks4 _ hl4 hk4)).mp h4B,
      (all_fk_iff fk5 ks5 hs5 (hkeysN t5 ks5 _ hl5 hk5)).mp h5B,
      (all_fk_iff fk6 ks6 hs6 (hkeysN t6 ks6 _ hl6 hk6)).mp h6B,
      (all_metric_iff me1).mp hq1, (all_metric_iff me2).mp hq2,
      (all_metric_iff me3).mp hq3, (all_metric_iff me4).mp hq4,
      (all_metric_iff me5).mp hq5, (all_metric_iff me6).mp hq6,
      (all_nonNull_iff ing).mp hingB⟩
  · rintro ⟨hdall, hfidC, h1C, h2C, h3C, h4C, h5C, h6C, hq1, hq2, hq3, hq4,
      hq5, hq6, hingC⟩
    have hkeysN : ∀ (t : Table) (ks : List Cell) (name : String),
        dims.lookup name = some t → t.getCol "key" = some ks →
        ∀ v ∈ ks, v ≠ Cell.null := by
      intro t ks name hlk hkk v hv
      have hmem := lookup_mem hlk
      have hclaim := hdall _ hmem
      have := hclaim.1
      rw [hkk] at this
      exact this v hv
    refine ⟨hdall, (all_nn_str_iff fid hfidS).mpr hfidC,
      (all_fk_iff fk1 ks1 hs1 (hkeysN t1 ks1 _ hl1 hk1)).mpr h1C,
      (all_fk_iff fk2 ks2 hs2 (hkeysN t2 ks2 _ hl2 hk2)).mpr h2C,
      (all_fk_iff fk3 ks3 hs3 (hkeysN t3 ks3 _ hl3 hk3)).mpr h3C,
      (all_fk_iff fk4 ks4 hs4 (hkeysN t4 ks4 _ hl4 hk4)).mpr h4C,
      (all_fk_iff fk5 ks5 hs5 (hkeysN t5 ks5 _ hl5 hk5)).mpr h5C,
      (all_fk_iff fk6 ks6 hs6 (hkeysN t6 ks6 _ hl6 hk6)).mpr h6C,
      (all_metric_iff me1).mpr hq1, (all_metric_iff me2).mpr hq2,
      (all_metric_iff me3).mpr hq3, (all_metric_iff me4).mpr hq4,
      (all_metric_iff me5).mpr hq5, (all_metric_iff me6).mpr hq6,
      (all_nonNull_iff ing).mpr hingC⟩

/-- A concrete canonical dimension table for the C4 witness. -/
def c4DimT : Table :=
  ⟨["key", "title", "description", "ingested_at"],
   [[Cell.str "K1", Cell.str "T", Cell.null, Cell.time 1],
    [Cell.str "K2", Cell.str "T2", Cell.str "d", Cell.time 1]]⟩

/-- The six dimensions of the C4 witness. -/
def c4Dims : List (String × Table) :=
  [("TravelMotives", c4DimT), ("Population", c4DimT), ("TravelModes", c4DimT),
   ("Margins", c4DimT), ("RegionCharacteristics", c4DimT),
   ("Periods", c4DimT)]

/-- A concrete canonical fact table for the C4 witness. -/
def c4Fact : Table :=
  ⟨Loader.FACT_COLUMNS,
   [[Cell.str "h1", Cell.str "K1", Cell.str "K2", Cell.str "K1",
     Cell.str "K1", Cell.str "K2", Cell.str "K1", Cell.num 1, Cell.null,
     Cell.num 3, Cell.null, Cell.num 5, Cell.num 6, Cell.time 7]]⟩

/-- Witness for C4: on a concrete conforming input the characterisation
instantiates and yields a successful validation. -/
theorem claim_c4_validation_iff_witness :
    Validator.validateAll c4Dims c4Fact = .ok () :=
  ((claim_c4_validation_iff c4Dims c4Fact c4DimT c4DimT c4DimT c4DimT c4DimT
      c4DimT
      [Cell.str "K1", Cell.str "K2"] [Cell.str "K1", Cell.str "K2"]
      [Cell.str "K1", Cell.str "K2"] [Cell.str "K1", Cell.str "K2"]
      [Cell.str "K1", Cell.str "K2"] [Cell.str "K1", Cell.str "K2"]
      (by decide) (by decide) (by decide) (by decide) (by decide) (by decide)
      (by decide) (by decide) (by decide) (by decide) (by decide) (by decide)
      (by
        intro p hp
        fin_cases hp <;>
          exact ⟨_, _, _, _, rfl, rfl, rfl, rfl, by decide, by decide,
            by decide⟩)
      [Cell.str "h1"] [Cell.str "K1"] [Cell.str "K2"] [Cell.str "K1"]
      [Cell.str "K1"] [Cell.str "K2"] [Cell.str "K1"]
      [Cell.num 1] [Cell.null] [Cell.num 3] [Cell.null] [Cell.num 5]
      [Cell.num 6] [Cell.time 7]
      (by decide) (by decide) (by decide) (by decide) (by decide) (by decide)
      (by decide) (by decide) (by decide) (by decide) (by decide) (by decide)
      (by decide) (by decide)
      (by decide) (by decide) (by decide) (by decide) (by decide) (by decide)
      (by decide)).1).mpr
    ⟨by
      intro p hp
      fin_cases hp <;>
        exact ⟨by decide, by decide, by decide, by decide⟩,
     by decide, by decide, by decide, by decide, by decide, by decide,
     by decide, by decide, by decide, by decide, by decide, by decide,
     by decide, by decide⟩

/-! ## C6: upsert semantics -/

theorem recordGet_set_self (r : Loader.Record) (c : String) (v : Cell) :
    Loader.recordGet (Loader.recordSet r c v) c = v := by
  simp [Loader.recordGet, Loader.recordSet, List.lookup]

theorem recordGet_set_ne (r : Loader.Record) (c c2 : String) (v : Cell)
    (h : c2 ≠ c) :
    Loader.recordGet (Loader.recordSet r c v) c2 = Loader.recordGet r c2 := by
  have hb : (c2 == c) = false := beq_eq_false_iff_ne.mpr h
  simp [Loader.recordGet, Loader.recordSet, List.lookup, hb]

theorem recordGet_foldl_set (cols : List String) (rec : Loader.Record) :
    ∀ (row : Loader.Record) (c : String),
      Loader.recordGet
        (cols.foldl (fun r u => Loader.recordSet r u (Loader.recordGet rec u))
          row) c =
      if c ∈ cols then Loader.recordGet rec c else Loader.recordGet row c := by
  induction cols with
  | nil => intro row c; simp
  | cons u us ih =>
    intro row c
    rw [List.foldl_cons, ih]
    by_cases hcu : c ∈ us
    · rw [if_pos hcu, if_pos (List.mem_cons_of_mem u hcu)]
    · rw [if_neg hcu]
      by_cases hc : c = u
      · subst hc
        rw [if_pos (List.mem_cons_self c us), recordGet_set_self]
      · rw [recordGet_set_ne _ _ _ _ hc,
          if_neg (by simp [List.mem_cons, hc, hcu])]

theorem upsertRow_getD_of_any (q : Loader.UpsertQuery)
    (db : List Loader.Record) (rec : Loader.Record) (j : Nat)
    (hj : j < db.length)
    (hany : db.any (fun row => decide (Loader.recordGet row q.conflictColumn =
      Loader.recordGet rec q.conflictColumn)) = true) :
    (Loader.upsertRow q db rec).getD j [] =
      if Loader.recordGet (db.getD j []) q.conflictColumn =
          Loader.recordGet rec q.conflictColumn then
        q.updateColumns.foldl
          (fun r c => Loader.recordSet r c (Loader.recordGet rec c))
          (db.getD j [])
      else db.getD j [] := by
  unfold Loader.upsertRow
  rw [if_pos hany]
  exact getD_map_of_lt _ db j hj [] []

theorem upsertRow_length_ge (q : Loader.UpsertQuery)
    (db : List Loader.Record) (rec : Loader.Record) :
    db.length ≤ (Loader.upsertRow q db rec).length := by
  unfold Loader.upsertRow
  by_cases hany : db.any (fun row =>
      decide (Loader.recordGet row q.conflictColumn =
        Loader.recordGet rec q.conflictColumn)) = true
  · rw [if_pos hany, List.length_map]
  · rw [if_neg hany, List.length_append]
    omega

theorem upsertRow_getD_stable (q : Loader.UpsertQuery)
    (db : List Loader.Record) (rec : Loader.Record) (j : Nat)
    (hj : j < db.length) (c : String) (hc : c ∉ q.updateColumns) :
    Loader.recordGet ((Loader.upsertRow q db rec).getD j []) c =
      Loader.recordGet (db.getD j []) c := by
  unfold Loader.upsertRow
  by_cases hany : db.any (fun row =>
      decide (Loader.recordGet row q.conflictColumn =
        Loader.recordGet rec q.conflictColumn)) = true
  · rw [if_pos hany, getD_map_of_lt _ db j hj [] []]
    by_cases hm : Loader.recordGet (db.getD j []) q.conflictColumn =
        Loader.recordGet rec q.conflictColumn
    · rw [if_pos hm, recordGet_foldl_set, if_neg hc]
    · rw [if_neg hm]
  · rw [if_neg hany, List.getD_eq_getElem?_getD, List.getElem?_append_left hj,
      ← List.getD_eq_getElem?_getD]

theorem runUpsert_stable (q : Loader.UpsertQuery)
    (recs : List Loader.Record) :
    ∀ (db : List Loader.Record) (j : Nat), j < db.length →
      db.length ≤ (Loader.runUpsert q db recs).length ∧
      ∀ c, c ∉ q.updateColumns →
        Loader.recordGet ((Loader.runUpsert q db recs).getD j []) c =
          Loader.recordGet (db.getD j []) c := by
  induction recs with
  | nil => intro db j hj; exact ⟨Nat.le_refl _, fun c _ => rfl⟩
  | cons rec rest ih =>
    intro db j hj
    have hle := upsertRow_length_ge q db rec
    have hj2 : j < (Loader.upsertRow q db rec).length := Nat.lt_of_lt_of_le hj hle
    obtain ⟨hlen, hget⟩ := ih (Loader.upsertRow q db rec) j hj2
    refine ⟨Nat.le_trans hle hlen, fun c hc => ?_⟩
    have hstep : Loader.runUpsert q db (rec :: rest) =
        Loader.runUpsert q (Loader.upsertRow q db rec) rest := rfl
    rw [hstep, hget c hc, upsertRow_getD_stable q db rec j hj c hc]

theorem lookup_proj (g : String → Cell) (c : String) :
    ∀ cols : List String, c ∈ cols →
      (cols.map fun c0 => (c0, g c0)).lookup c = some (g c) := by
  intro cols
  induction cols with
  | nil => intro h; cases h
  | cons a as ih =>
    intro h
    by_cases hca : c = a
    · subst hca
      simp [List.lookup]
    · have hb : (c == a) = false := beq_eq_false_iff_ne.mpr hca
      rcases List.mem_cons.mp h with rfl | hmem
      · exact absurd rfl hca
      · simp [List.lookup, hb, ih hmem]

theorem upsertRow_present (q : Loader.UpsertQuery)
    (db : List Loader.Record) (rec : Loader.Record)
    (hci : q.conflictColumn ∈ q.insertColumns) :
    ∃ j < (Loader.upsertRow q db rec).length,
      Loader.recordGet ((Loader.upsertRow q db rec).getD j [])
        q.conflictColumn = Loader.recordGet rec q.conflictColumn := by
  by_cases hany : db.any (fun row =>
      decide (Loader.recordGet row q.conflictColumn =
        Loader.recordGet rec q.conflictColumn)) = true
  · obtain ⟨row, hrow, hdec⟩ := List.any_eq_true.mp hany
    rw [decide_eq_true_eq] at hdec
    obtain ⟨i, hi, hrowi⟩ := List.mem_iff_getElem.mp hrow
    have hgi : db.getD i [] = row := by
      rw [List.getD_eq_getElem?_getD, List.getElem?_eq_getElem hi, hrowi]
      rfl
    have hil : i < (Loader.upsertRow q db rec).length :=
      Nat.lt_of_lt_of_le hi (upsertRow_length_ge q db rec)
    refine ⟨i, hil, ?_⟩
    rw [upsertRow_getD_of_any q db rec i hi hany, hgi, if_pos hdec,
      recordGet_foldl_set]
    by_cases hcu : q.conflictColumn ∈ q.updateColumns
    · rw [if_pos hcu]
    · rw [if_neg hcu]
      exact hdec
  · refine ⟨db.length, ?_, ?_⟩
    · unfold Loader.upsertRow
      rw [if_neg hany, List.length_append]
      simp
    · unfold Loader.upsertRow
      rw [if_neg hany, List.getD_eq_getElem?_getD,
        List.getElem?_append_right (Nat.le_refl _)]
      simp only [Nat.sub_self, List.getElem?_cons_zero, Option.getD_some]
      unfold Loader.recordGet
      rw [lookup_proj _ _ _ hci]
      rfl

theorem runUpsert_present (q : Loader.UpsertQuery)
    (recs : List Loader.Record)
    (hci : q.conflictColumn ∈ q.insertColumns)
    (hcu : q.conflictColumn ∉ q.updateColumns) :
    ∀ (db : List Loader.Record), ∀ rec ∈ recs,
      ∃ j < (Loader.runUpsert q db recs).length,
        Loader.recordGet ((Loader.runUpsert q db recs).getD j [])
          q.conflictColumn = Loader.recordGet rec q.conflictColumn := by
  induction recs with
  | nil => intro db rec h; cases h
  | cons r rest ih =>
    intro db rec hrec
    have hstep : Loader.runUpsert q db (r :: rest) =
        Loader.runUpsert q (Loader.upsertRow q db r) rest := rfl
    rcases List.mem_cons.mp hrec with rfl | hmem
    · obtain ⟨j, hj, hval⟩ := upsertRow_present q db rec hci
      obtain ⟨hlen, hget⟩ := runUpsert_stable q rest (Loader.upsertRow q db rec) j hj
      refine ⟨j, Nat.lt_of_lt_of_le hj hlen, ?_⟩
      rw [hstep, hget _ hcu, hval]
    · rw [hstep]
      exact ih (Loader.upsertRow q db r) rec hmem

theorem runUpsert_all_match (q : Loader.UpsertQuery)
    (recs : List Loader.Record) (hcu : q.conflictColumn ∉ q.updateColumns) :
    ∀ db : List Loader.Record,
      (∀ rec ∈ recs, ∃ j < db.length,
        Loader.recordGet (db.getD j []) q.conflictColumn =
          Loader.recordGet rec q.conflictColumn) →
      (Loader.runUpsert q db recs).length = db.length ∧
      ∀ j < db.length, ∀ c, c ∉ q.updateColumns →
        Loader.recordGet ((Loader.runUpsert q db recs).getD j []) c =
          Loader.recordGet (db.getD j []) c := by
  induction recs with
  | nil => intro db _; exact ⟨rfl, fun j _ c _ => rfl⟩
  | cons rec rest ih =>
    intro db hmatch
    obtain ⟨j0, hj0, hv0⟩ := hmatch rec (List.mem_cons_self rec rest)
    have hany : db.any (fun row =>
        decide (Loader.recordGet row q.conflictColumn =
          Loader.recordGet rec q.conflictColumn)) = true :=
      List.any_eq_true.mpr ⟨db.getD j0 [], getD_mem_of_lt db j0 [] hj0,
        decide_eq_true_eq.mpr hv0⟩
    have hlen1 : (Loader.upsertRow q db rec).length = db.length := by
      unfold Loader.upsertRow
      rw [if_pos hany, List.length_map]
    have hstable : ∀ j < db.length, ∀ c, c ∉ q.updateColumns →
        Loader.recordGet ((Loader.upsertRow q db rec).getD j []) c =
          Loader.recordGet (db.getD j []) c :=
      fun j hj c hc => upsertRow_getD_stable q db rec j hj c hc
    have hmatch2 : ∀ r2 ∈ rest, ∃ j < (Loader.upsertRow q db rec).length,
        Loader.recordGet ((Loader.upsertRow q db rec).getD j [])
          q.conflictColumn = Loader.recordGet r2 q.conflictColumn := by
      intro r2 hr2
      obtain ⟨j, hj, hv⟩ := hmatch r2 (List.mem_cons_of_mem rec hr2)
      refine ⟨j, by rw [hlen1]; exact hj, ?_⟩
      rw [hstable j hj _ hcu, hv]
    obtain ⟨hlen2, hget2⟩ := ih (Loader.upsertRow q db rec) hmatch2
    have hstep : Loader.runUpsert q db (rec :: rest) =
        Loader.runUpsert q (Loader.upsertRow q db rec) rest := rfl
    constructor
    · rw [hstep, hlen2, hlen1]
    · intro j hj c hc
      rw [hstep, hget2 j (by rw [hlen1]; exact hj) c hc, hstable j hj c hc]

/-- Claim C6: the dimension upsert conflicts on `key` and overwrites
exactly title, description and ingested_at; the fact upsert conflicts on
`fact_id` and overwrites exactly the six metrics and ingested_at — never
a foreign key and never the key itself — and on conflict an update
touches exactly the update columns; hence loading the same canonical
fact table twice keeps the row count and leaves `fact_id` and all six
foreign keys of every row unchanged. -/
theorem claim_c6_upsert_semantics :
    (Loader.dimUpsertQuery.conflictColumn = "key" ∧
     Loader.dimUpsertQuery.updateColumns =
       ["title", "description", "ingested_at"] ∧
     Loader.factUpsertQuery.conflictColumn = "fact_id" ∧
     Loader.factUpsertQuery.updateColumns =
       ["trips_daily", "distance_daily", "time_daily", "trips_yearly",
        "distance_yearly", "time_yearly", "ingested_at"] ∧
     (∀ c ∈ FactTransformer.FK_COLUMNS,
       c ∉ Loader.factUpsertQuery.updateColumns) ∧
     "fact_id" ∉ Loader.factUpsertQuery.updateColumns ∧
     "key" ∉ Loader.dimUpsertQuery.updateColumns) ∧
    (∀ (q : Loader.UpsertQuery) (db : List Loader.Record)
      (rec : Loader.Record) (j : Nat), j < db.length →
      Loader.recordGet (db.getD j []) q.conflictColumn =
        Loader.recordGet rec q.conflictColumn →
      ∀ c, Loader.recordGet ((Loader.upsertRow q db rec).getD j []) c =
        if c ∈ q.updateColumns then Loader.recordGet rec c
        else Loader.recordGet (db.getD j []) c) ∧
    (∀ (t : Table) (db : List Loader.Record),
      ((Loader.factLoad ((Loader.factLoad db t).1) t).1).length =
        ((Loader.factLoad db t).1).length ∧
      ∀ j, j < ((Loader.factLoad db t).1).length →
        ∀ c, c = "fact_id" ∨ c ∈ FactTransformer.FK_COLUMNS →
        Loader.recordGet
            (((Loader.factLoad ((Loader.factLoad db t).1) t).1).getD j []) c =
          Loader.recordGet (((Loader.factLoad db t).1).getD j []) c) := by
  refine ⟨by refine ⟨rfl, rfl, rfl, rfl, by decide, by decide, by decide⟩,
    ?_, ?_⟩
  · intro q db rec j hj hm c
    have hany : db.any (fun row =>
        decide (Loader.recordGet row q.conflictColumn =
          Loader.recordGet rec q.conflictColumn)) = true :=
      List.any_eq_true.mpr ⟨db.getD j [], getD_mem_of_lt db j [] hj,
        decide_eq_true_eq.mpr hm⟩
    rw [upsertRow_getD_of_any q db rec j hj hany, if_pos hm,
      recordGet_foldl_set]
  · intro t db
    have hci : Loader.factUpsertQuery.conflictColumn ∈
        Loader.factUpsertQuery.insertColumns := by decide
    have hcu : Loader.factUpsertQuery.conflictColumn ∉
        Loader.factUpsertQuery.updateColumns := by decide
    have hpresent := runUpsert_present Loader.factUpsertQuery
      (Loader.tableRecords t) hci hcu db
    obtain ⟨hlen, hget⟩ := runUpsert_all_match Loader.factUpsertQuery
      (Loader.tableRecords t) hcu
      (Loader.runUpsert Loader.factUpsertQuery db (Loader.tableRecords t))
      hpresent
    constructor
    · exact hlen
    · intro j hj c hc
      refine hget j hj c ?_
      rcases hc with rfl | hfk
      · exact hcu
      · revert hfk
        revert c
        decide

/-- Witness for C6: reloading a concrete canonical fact table leaves the
travel-motive foreign key of the existing row untouched. -/
theorem claim_c6_upsert_semantics_witness :
    Loader.recordGet
      (((Loader.factLoad ((Loader.factLoad [] c4Fact).1) c4Fact).1).getD 0 [])
      "travel_motive_key" =
    Loader.recordGet (((Loader.factLoad [] c4Fact).1).getD 0 [])
      "travel_motive_key" :=
  (claim_c6_upsert_semantics.2.2 c4Fact []).2 0 (by decide)
    "travel_motive_key" (Or.inr (by decide))

end ETLModel
